import Mathlib

/-!
# netperf-operator: the reconciler of `pkg/stub/handler.go`

A shallow embedding of the handler of the netperf operator and of the pure
helpers it relies on (pod naming, pod construction, result parsing), followed
by theorems about them.

Conventions of the embedding

* Go strings are Lean `String`s; the library routines `strings.Split` and
  `strings.Fields` are written out on character lists.
* A Go call either returns or panics (`Outcome`).  Index expressions such as
  `lines[6]` panic when the index is out of range.
* Calls into the operator SDK and the cluster (`sdk.Create`, `sdk.Update`,
  `sdk.Get`, `sdk.Delete`, the log stream) are fields of a `Cluster`
  record acting on an arbitrary store state `σ`; every call a handler makes
  is appended, with its result, to a trace.
* `strconv.ParseFloat` is a field of the same record: its result type `F`
  stands for `float64`.
-/

namespace Stub

/-! ## Go runtime: panics, errors -/

/-- Run-time panics that the handler code can raise. -/
inductive GoPanic where
  | indexOutOfRange
  | nilDereference
  deriving DecidableEq

/-- The result of running a Go function: it returns a value or panics. -/
inductive Outcome (α : Type) where
  | ret (a : α)
  | panic (p : GoPanic)
  deriving DecidableEq

/-- A Go `error` value.  `Reason` is the API status reason that
`errors.ReasonForError` reports (empty for errors that are not API status
errors), `Message` the text of `Error()`. -/
structure GoError where
  Reason : String
  Message : String
  deriving DecidableEq

/-- Result of a Go function of type `(T, error)` whose value is only used when the
error is nil. -/
inductive Result (α : Type) where
  | ok (a : α)
  | error (e : GoError)
  deriving DecidableEq

/-- Index expression `xs[i]` of Go: panics when `i` is out of range. -/
def index {α : Type} (xs : List α) (i : Nat) : Outcome α :=
  match xs[i]? with
  | some x => Outcome.ret x
  | none => Outcome.panic GoPanic.indexOutOfRange

/-! ## Package `strings` -/

namespace strings

/-- Explode a string into its characters (`strings.Split` with an empty separator). -/
def explode (s : List Char) : List (List Char) :=
  s.map fun c => [c]

/-- Worker of `Split` for a non-empty separator: `skip` counts the characters of
a separator occurrence still to be dropped, `cur` is the piece being read,
reversed. -/
def splitGo (sep : List Char) : List Char → Nat → List Char → List (List Char)
  | [], _, cur => [cur.reverse]
  | _ :: cs, skip + 1, cur => splitGo sep cs skip cur
  | c :: cs, 0, cur =>
    if sep.isPrefixOf (c :: cs) then cur.reverse :: splitGo sep cs (sep.length - 1) []
    else splitGo sep cs 0 (c :: cur)

/-- The function `strings.Split(s, sep)` on character lists: the pieces of `s` between the
non-overlapping occurrences of `sep`, found left to right. -/
def SplitChars (s sep : List Char) : List (List Char) :=
  if sep.isEmpty then explode s else splitGo sep s 0 []

/-- The function `strings.Split(s, sep)`. -/
def Split (s sep : String) : List String :=
  (SplitChars s.data sep.data).map String.mk

/-- The predicate `unicode.IsSpace`: the characters with the Unicode White_Space property. -/
def isSpace (c : Char) : Bool :=
  let n := c.toNat
  (9 ≤ n && n ≤ 13) || n == 0x20 || n == 0x85 || n == 0xA0 || n == 0x1680 ||
  (0x2000 ≤ n && n ≤ 0x200A) || n == 0x2028 || n == 0x2029 || n == 0x202F ||
  n == 0x205F || n == 0x3000

/-- Worker of `Fields`: `cur` is the field being read, reversed. -/
def fieldsGo : List Char → List Char → List (List Char)
  | [], cur => if cur.isEmpty then [] else [cur.reverse]
  | c :: cs, cur =>
    if isSpace c then
      if cur.isEmpty then fieldsGo cs [] else cur.reverse :: fieldsGo cs []
    else fieldsGo cs (c :: cur)

/-- The function `strings.Fields(s)` on character lists. -/
def FieldsChars (s : List Char) : List (List Char) :=
  fieldsGo s []

/-- The function `strings.Fields(s)`: the maximal runs of non-space characters of `s`. -/
def Fields (s : String) : List String :=
  (FieldsChars s.data).map String.mk

end strings

/-! ## Result parsing -/

/-- Source: `parseNetperfResult`.  `ParseFloat s` stands for `strconv.ParseFloat(s, 64)`;
the index expressions `lines[6]` and `entries[4]` panic when they are out of range. -/
def parseNetperfResult {F : Type} (ParseFloat : String → Result F) (result : String) :
    Outcome (Result F) :=
  let lines := strings.Split result "\n"
  match index lines 6 with
  | Outcome.panic p => Outcome.panic p
  | Outcome.ret line =>
    let entries := strings.Fields line
    match index entries 4 with
    | Outcome.panic p => Outcome.panic p
    | Outcome.ret entry => Outcome.ret (ParseFloat entry)

/-! ## Data model: the Netperf custom resource and pods -/

/-- Modelled from the spec: the phase constants `NetperfPhaseInitial`, `NetperfPhaseServer`,
`NetperfPhaseTest`, `NetperfPhaseDone` and `NetperfPhaseError` of package `v1alpha1`
(the states Initial, ServerScheduled, Testing, Done and Error of the request). -/
inductive Phase where
  | Initial
  | Server
  | Test
  | Done
  | Error
  deriving DecidableEq

/-- Modelled from the spec: `v1alpha1.NetperfSpec`, the optional placement hints. -/
structure NetperfSpec where
  ServerNode : String := ""
  ClientNode : String := ""
  deriving DecidableEq

/-- Modelled from the spec: `v1alpha1.NetperfStatus`; `F` stands for `float64`. -/
structure NetperfStatus (F : Type) where
  Status : Phase
  ServerPod : String
  ClientPod : String
  SpeedBitsPerSec : F
  deriving DecidableEq

/-- Modelled from the spec: `v1alpha1.Netperf`, the benchmark request, with the fields of
its object metadata that the handler reads. -/
structure Netperf (F : Type) where
  Name : String
  Namespace : String
  UID : String
  Spec : NetperfSpec
  Status : NetperfStatus F
  deriving DecidableEq

/-- The type `metav1.OwnerReference`. -/
structure OwnerReference where
  APIVersion : String := ""
  Kind : String := ""
  Name : String := ""
  UID : String := ""
  Controller : Option Bool := none
  BlockOwnerDeletion : Option Bool := none
  deriving DecidableEq

/-- The type `v1.NodeSelectorRequirement`. -/
structure NodeSelectorRequirement where
  Key : String
  Operator : String
  Values : List String
  deriving DecidableEq

/-- The type `v1.NodeSelectorTerm`. -/
structure NodeSelectorTerm where
  MatchExpressions : List NodeSelectorRequirement
  deriving DecidableEq

/-- The type `v1.NodeSelector`. -/
structure NodeSelector where
  NodeSelectorTerms : List NodeSelectorTerm
  deriving DecidableEq

/-- The type `v1.NodeAffinity` (the required part only; the handler sets nothing else). -/
structure NodeAffinity where
  RequiredDuringSchedulingIgnoredDuringExecution : Option NodeSelector
  deriving DecidableEq

/-- The type `v1.Affinity` (node affinity only; the handler sets nothing else). -/
structure Affinity where
  NodeAffinity : Option NodeAffinity
  deriving DecidableEq

/-- The type `v1.Container`. -/
structure Container where
  Name : String := ""
  Image : String := ""
  Command : List String := []
  deriving DecidableEq

/-- The type `v1.PodSpec`. -/
structure PodSpec where
  Containers : List Container := []
  RestartPolicy : String := ""
  Affinity : Option Affinity := none
  deriving DecidableEq

/-- The type `v1.PodStatus`: observed phase and address. -/
structure PodStatus where
  Phase : String := ""
  PodIP : String := ""
  deriving DecidableEq

/-- The type `v1.Pod`.  `Labels` is the label map as a key-sorted association list. -/
structure Pod where
  Kind : String := ""
  APIVersion : String := ""
  Name : String := ""
  Namespace : String := ""
  UID : String := ""
  OwnerReferences : List OwnerReference := []
  Labels : List (String × String) := []
  Spec : PodSpec := {}
  Status : PodStatus := {}
  deriving DecidableEq

/-- The constant `v1.PodRunning`. -/
def PodRunning : String := "Running"
/-- The constant `v1.PodSucceeded`. -/
def PodSucceeded : String := "Succeeded"
/-- The constant `v1.RestartPolicyAlways`. -/
def RestartPolicyAlways : String := "Always"
/-- The constant `v1.RestartPolicyOnFailure`. -/
def RestartPolicyOnFailure : String := "OnFailure"

/-- The type `netperfType` is a string type. -/
abbrev netperfType := String
/-- Source: `netperfTypeServer`. -/
def netperfTypeServer : netperfType := "server"
/-- Source: `netperfTypeClient`. -/
def netperfTypeClient : netperfType := "client"
/-- Source: `netperfImage`. -/
def netperfImage : String := "tailoredcloud/netperf:v2.7"

/-- The type `schema.GroupVersion`. -/
structure GroupVersion where
  Group : String
  Version : String
  deriving DecidableEq

/-- The method `GroupVersion.String`. -/
def GroupVersion.String (gv : GroupVersion) : String :=
  if gv.Group = "" then gv.Version else gv.Group ++ "/" ++ gv.Version

/-- The function `metav1.NewControllerRef(cr, gvk)` for a Netperf owner. -/
def NewControllerRef {F : Type} (cr : Netperf F) (gv : GroupVersion) (kind : String) :
    OwnerReference :=
  { APIVersion := gv.String, Kind := kind, Name := cr.Name, UID := cr.UID,
    Controller := some true, BlockOwnerDeletion := some true }

/-- The object carried by an `sdk.Event`: a Netperf, a pod, or an object of another kind. -/
inductive Object (F : Type) where
  | netperf (o : Netperf F)
  | pod (p : Pod)
  | other (kind : String)
  deriving DecidableEq

/-- The type `sdk.Event`. -/
structure Event (F : Type) where
  Object : Object F
  Deleted : Bool
  deriving DecidableEq

/-! ## The cluster: the SDK calls, their trace, and the handler monad -/

/-- The external collaborators of the handler, over a store state `σ`.
`SchemeGroupVersion` is `v1alpha1.SchemeGroupVersion`, `ParseFloat s` is
`strconv.ParseFloat(s, 64)`; `Create`, `Update`, `GetPod`, `GetNetperf` and `Delete` are
`sdk.Create`, `sdk.Update`, `sdk.Get` (on a pod, on a Netperf) and `sdk.Delete`;
`GetLogs ns name` opens and reads the log stream of a pod.  `GetPod` receives the
object to fill in and returns it as the call leaves it together with the error. -/
structure Cluster (σ F : Type) where
  SchemeGroupVersion : GroupVersion
  ParseFloat : String → Result F
  Create : Pod → σ → Option GoError × σ
  Update : Netperf F → σ → Option GoError × σ
  GetNetperf : String → String → σ → Result (Netperf F) × σ
  GetPod : Pod → σ → (Pod × Option GoError) × σ
  Delete : Pod → σ → Option GoError × σ
  GetLogs : String → String → σ → Result String × σ

/-- One call to the cluster together with what it returned. -/
inductive Call (F : Type) where
  | Create (pod : Pod) (err : Option GoError)
  | Update (cr : Netperf F) (err : Option GoError)
  | GetNetperf (name ns : String) (res : Result (Netperf F))
  | GetPod (into : Pod) (res : Pod × Option GoError)
  | Delete (pod : Pod) (err : Option GoError)
  | GetLogs (ns name : String) (res : Result String)
  deriving DecidableEq

/-- A handler step: from the store state and the trace so far to an outcome, the new
store state and the extended trace. -/
structure Run (σ F α : Type) where
  run : σ × List (Call F) → Outcome α × (σ × List (Call F))

/-- Return a value without touching the store. -/
def Run.pure {σ F α : Type} (a : α) : Run σ F α :=
  ⟨fun w => (Outcome.ret a, w)⟩

/-- Sequence two steps; a panic stops the run and keeps the state reached. -/
def Run.bind {σ F α β : Type} (m : Run σ F α) (f : α → Run σ F β) : Run σ F β :=
  ⟨fun w =>
    match m.run w with
    | (Outcome.ret a, w') => (f a).run w'
    | (Outcome.panic p, w') => (Outcome.panic p, w')⟩

instance {σ F : Type} : Monad (Run σ F) where
  pure := Run.pure
  bind := Run.bind

/-- Embed a pure Go computation that may panic. -/
def Run.lift {σ F α : Type} (o : Outcome α) : Run σ F α :=
  ⟨fun w => (o, w)⟩

namespace errors

/-- The function `errors.IsAlreadyExists(err)`: the error is an API status error with reason
`AlreadyExists`. -/
def IsAlreadyExists (err : Option GoError) : Bool :=
  match err with
  | some e => e.Reason == "AlreadyExists"
  | none => false

end errors

namespace fmt

/-- The call `fmt.Errorf(prefix ++ "%v", err)`: a plain error wrapping the text of `err`. -/
def Errorf (pre : String) (err : GoError) : GoError :=
  { Reason := "", Message := pre ++ err.Message }

end fmt

namespace sdk

variable {σ F : Type}

/-- The call `sdk.Create(pod)`. -/
def Create (cl : Cluster σ F) (pod : Pod) : Run σ F (Option GoError) :=
  ⟨fun w => let r := cl.Create pod w.1
    (Outcome.ret r.1, (r.2, w.2 ++ [Call.Create pod r.1]))⟩

/-- The call `sdk.Update(cr)`. -/
def Update (cl : Cluster σ F) (cr : Netperf F) : Run σ F (Option GoError) :=
  ⟨fun w => let r := cl.Update cr w.1
    (Outcome.ret r.1, (r.2, w.2 ++ [Call.Update cr r.1]))⟩

/-- The call `sdk.Get(cr)` on a Netperf with the given name and namespace. -/
def GetNetperf (cl : Cluster σ F) (name ns : String) : Run σ F (Result (Netperf F)) :=
  ⟨fun w => let r := cl.GetNetperf name ns w.1
    (Outcome.ret r.1, (r.2, w.2 ++ [Call.GetNetperf name ns r.1]))⟩

/-- The call `sdk.Get(pod)`. -/
def GetPod (cl : Cluster σ F) (into : Pod) : Run σ F (Pod × Option GoError) :=
  ⟨fun w => let r := cl.GetPod into w.1
    (Outcome.ret r.1, (r.2, w.2 ++ [Call.GetPod into r.1]))⟩

/-- The call `sdk.Delete(pod)`. -/
def Delete (cl : Cluster σ F) (pod : Pod) : Run σ F (Option GoError) :=
  ⟨fun w => let r := cl.Delete pod w.1
    (Outcome.ret r.1, (r.2, w.2 ++ [Call.Delete pod r.1]))⟩

/-- The log request `GetLogs(name).Stream()` read to its end. -/
def GetLogs (cl : Cluster σ F) (ns name : String) : Run σ F (Result String) :=
  ⟨fun w => let r := cl.GetLogs ns name w.1
    (Outcome.ret r.1, (r.2, w.2 ++ [Call.GetLogs ns name r.1]))⟩

end sdk

/-! ## Pod construction -/

section Handler

variable {σ F : Type}

/-- Source: `getNetperfPodAffinity`. -/
def getNetperfPodAffinity (cr : Netperf F) (npType : netperfType) : Option Affinity :=
  if (npType = netperfTypeClient ∧ cr.Spec.ClientNode = "") ∨
      (npType = netperfTypeServer ∧ cr.Spec.ServerNode = "") then
    none
  else
    let nodeName : String :=
      if npType = netperfTypeClient then cr.Spec.ClientNode
      else if npType = netperfTypeServer then cr.Spec.ServerNode
      else ""
    some
      { NodeAffinity := some
          { RequiredDuringSchedulingIgnoredDuringExecution := some
              { NodeSelectorTerms :=
                  [{ MatchExpressions :=
                      [{ Key := "kubernetes.io/hostname", Operator := "In",
                         Values := [nodeName] }] }] } } }

/-- Source: `getNetperfPodName`.  The index expression `strings.Split(guidString, "-")[4]`
panics when the UID has fewer than five fragments. -/
def getNetperfPodName (cr : Netperf F) (npType : netperfType) : Outcome String :=
  let guidString := cr.UID
  match index (strings.Split guidString "-") 4 with
  | Outcome.panic p => Outcome.panic p
  | Outcome.ret suffix =>
    if npType = netperfTypeClient then Outcome.ret ("netperf-client-" ++ suffix)
    else if npType = netperfTypeServer then Outcome.ret ("netperf-server-" ++ suffix)
    else Outcome.ret ""

/-- Source: `newNetperfPod`. -/
def newNetperfPod (gv : GroupVersion) (cr : Netperf F) (npType : netperfType)
    (restartPolicy : String) (command : List String) : Outcome Pod :=
  match getNetperfPodName cr npType with
  | Outcome.panic p => Outcome.panic p
  | Outcome.ret name =>
    let affinity := getNetperfPodAffinity cr npType
    let labels := [("app", "netperf-operator"), ("netperf-type", npType)]
    Outcome.ret
      { Kind := "Pod", APIVersion := "v1", Name := name, Namespace := cr.Namespace,
        OwnerReferences := [NewControllerRef cr gv "Netperf"],
        Labels := labels,
        Spec :=
          { Containers := [{ Name := name, Image := netperfImage, Command := command }],
            RestartPolicy := restartPolicy,
            Affinity := affinity } }

/-! ## The handler -/

/-- Source: `deleteNetperfPods`: only logs. -/
def deleteNetperfPods (_cr : Netperf F) : Run σ F (Option GoError) :=
  pure none

/-- Source: `registerNetperfServer`. -/
def registerNetperfServer (cl : Cluster σ F) (cr : Netperf F) (serverPod : Pod) :
    Run σ F (Option GoError) :=
  let c : Netperf F :=
    { cr with Status := { cr.Status with Status := Phase.Server, ServerPod := serverPod.Name } }
  sdk.Update cl c

/-- Source: `startServerPod`. -/
def startServerPod (cl : Cluster σ F) (cr : Netperf F) : Run σ F (Option GoError) := do
  let serverPod ← Run.lift
    (newNetperfPod cl.SchemeGroupVersion cr netperfTypeServer RestartPolicyAlways [])
  let err ← sdk.Create cl serverPod
  if err ≠ none ∧ errors.IsAlreadyExists err = false then
    pure err
  else if (err ≠ none ∧ errors.IsAlreadyExists err = true) ∧
      cr.Status.ServerPod = serverPod.Name then
    pure none
  else
    registerNetperfServer cl cr serverPod

/-- Source: `handleNetperfUpdateEvent`. -/
def handleNetperfUpdateEvent (cl : Cluster σ F) (cr : Netperf F) : Run σ F (Option GoError) :=
  match cr.Status.Status with
  | Phase.Initial => startServerPod cl cr
  | Phase.Server => startServerPod cl cr
  | _ => pure none

/-- Source: `getNetperfByName`. -/
def getNetperfByName (cl : Cluster σ F) (name ns : String) : Run σ F (Result (Netperf F)) :=
  sdk.GetNetperf cl name ns

/-- Source: `getPodByName`: the pod is returned together with the error of the fetch. -/
def getPodByName (cl : Cluster σ F) (name ns : String) : Run σ F (Pod × Option GoError) :=
  let pod : Pod := { Kind := "Pod", APIVersion := "v1", Name := name, Namespace := ns }
  sdk.GetPod cl pod

/-- Source: `getLogFromClientPod`.  When `Stream()` fails the error is only logged and the
reader is nil, so the deferred `rc.Close()` panics; otherwise the stream is read through. -/
def getLogFromClientPod (cl : Cluster σ F) (pod : Pod) : Run σ F String := do
  let r ← sdk.GetLogs cl pod.Namespace pod.Name
  match r with
  | Result.error _ => Run.lift (Outcome.panic GoPanic.nilDereference)
  | Result.ok text => pure text

/-- Source: `updateNetperfStatus`.  The parameter `status` is not used: the phase written
is `NetperfPhaseDone`. -/
def updateNetperfStatus (cl : Cluster σ F) (resource : Netperf F) (_status : Phase) :
    Run σ F (Option GoError) :=
  let netperf : Netperf F :=
    { resource with Status := { resource.Status with Status := Phase.Done } }
  sdk.Update cl netperf

/-- Source: `handleClientPodEvent`. -/
def handleClientPodEvent (cl : Cluster σ F) (cr : Netperf F) (pod : Pod) :
    Run σ F (Option GoError) :=
  if pod.Status.Phase = PodRunning then
    pure none
  else if pod.Status.Phase = PodSucceeded ∧ cr.Status.Status ≠ Phase.Done then do
    let res ← getLogFromClientPod cl pod
    let parsed ← Run.lift (parseNetperfResult cl.ParseFloat res)
    match parsed with
    | Result.error convErr => do
      let _ ← updateNetperfStatus cl cr Phase.Error
      pure (some (fmt.Errorf "error trying to convert test result to float: " convErr))
    | Result.ok throughput => do
      let fetched ← getPodByName cl cr.Status.ServerPod cr.Namespace
      match fetched.2 with
      | some err => do
        let _ ← updateNetperfStatus cl cr Phase.Error
        pure (some err)
      | none => do
        let serverPod := fetched.1
        let err ← sdk.Delete cl pod
        match err with
        | some e => do
          let _ ← updateNetperfStatus cl cr Phase.Error
          pure (some e)
        | none => do
          let err ← sdk.Delete cl serverPod
          match err with
          | some e => do
            let _ ← updateNetperfStatus cl cr Phase.Error
            pure (some e)
          | none =>
            let netperf : Netperf F :=
              { cr with Status :=
                  { cr.Status with SpeedBitsPerSec := throughput, Status := Phase.Done } }
            sdk.Update cl netperf
  else
    pure none

/-- Source: `handleServerPodEvent`.  The result of the final `sdk.Update(c)` is dropped. -/
def handleServerPodEvent (cl : Cluster σ F) (cr : Netperf F) (pod : Pod) :
    Run σ F (Option GoError) :=
  if pod.Status.Phase ≠ PodRunning then
    pure none
  else if cr.Status.ClientPod ≠ "" then
    pure none
  else do
    let clientPod ← Run.lift
      (newNetperfPod cl.SchemeGroupVersion cr netperfTypeClient RestartPolicyOnFailure
        ["netperf", "-H", pod.Status.PodIP])
    let err ← sdk.Create cl clientPod
    if err ≠ none ∧ errors.IsAlreadyExists err = false then
      pure err
    else if (err ≠ none ∧ errors.IsAlreadyExists err = true) ∧
        cr.Status.ClientPod = clientPod.Name then
      pure none
    else do
      let c : Netperf F :=
        { cr with Status := { cr.Status with Status := Phase.Test, ClientPod := clientPod.Name } }
      let _ ← sdk.Update cl c
      pure none

/-- Source: `handlePodUpdateEvent`. -/
def handlePodUpdateEvent (cl : Cluster σ F) (pod : Pod) : Run σ F (Option GoError) := do
  let owner ← Run.lift (index pod.OwnerReferences 0)
  let fetched ← getNetperfByName cl owner.Name pod.Namespace
  match fetched with
  | Result.error _ => pure none
  | Result.ok cr =>
    let isServerPod : Bool := pod.Name == cr.Status.ServerPod
    let isClientPod : Bool := pod.Name == cr.Status.ClientPod
    if !isServerPod && !isClientPod then
      pure none
    else if isClientPod then
      handleClientPodEvent cl cr pod
    else if isServerPod then
      handleServerPodEvent cl cr pod
    else
      pure none

/-- Source: `Handle`. -/
def Handle (cl : Cluster σ F) (event : Event F) : Run σ F (Option GoError) :=
  match event.Object with
  | Object.netperf o =>
    if event.Deleted then deleteNetperfPods o else handleNetperfUpdateEvent cl o
  | Object.pod pod => do
    let owner ← Run.lift (index pod.OwnerReferences 0)
    if owner.Kind ≠ "Netperf" then
      pure none
    else
      handlePodUpdateEvent cl pod
  | Object.other _ => pure none

end Handler

/-! ## A concrete cluster -/

namespace strconv

/-- Read a run of decimal digits, most significant first, onto the accumulator. -/
def readDigits : List Char → Nat → Option Nat
  | [], acc => some acc
  | c :: cs, acc =>
    if 48 ≤ c.toNat ∧ c.toNat ≤ 57 then readDigits cs (10 * acc + (c.toNat - 48)) else none

/-- The digits of a plain decimal literal `ddd.ddd` as mantissa and scale. -/
def decimalParts (s : List Char) : Option (Nat × Nat) :=
  let intPart := s.takeWhile (fun c => c != '.')
  let rest := s.dropWhile (fun c => c != '.')
  let fracPart := rest.drop 1
  if intPart.length + fracPart.length = 0 then none
  else
    match readDigits (intPart ++ fracPart) 0 with
    | some m => some (m, fracPart.length)
    | none => none

/-- The error `strconv.ParseFloat` returns on a malformed literal. -/
def numError (s : String) : GoError :=
  { Reason := "", Message := "strconv.ParseFloat: parsing \"" ++ s ++ "\": invalid syntax" }

/-- A decimal number `± mantissa / 10 ^ scale`, as written in a literal. -/
structure Decimal where
  negative : Bool
  mantissa : Nat
  scale : Nat
  deriving DecidableEq

/-- The number a decimal denotes. -/
def Decimal.value (d : Decimal) : ℚ :=
  if d.negative then -((d.mantissa : ℚ) / (10 : ℚ) ^ d.scale)
  else (d.mantissa : ℚ) / (10 : ℚ) ^ d.scale

/-- A stand-in for `strconv.ParseFloat(s, 64)`, used to run the handler on concrete
inputs.  It reads plain decimal literals (an optional sign, digits, an optional point,
digits) exactly and rejects every other text; the library function rounds to the nearest
`float64` and accepts more forms (exponents, infinities, NaN), none of which occurs in
the inputs it is run on here. -/
def ParseDecimal (s : String) : Result Decimal :=
  match s.data with
  | '-' :: cs =>
    match decimalParts cs with
    | some (m, k) => Result.ok { negative := true, mantissa := m, scale := k }
    | none => Result.error (numError s)
  | '+' :: cs =>
    match decimalParts cs with
    | some (m, k) => Result.ok { negative := false, mantissa := m, scale := k }
    | none => Result.error (numError s)
  | cs =>
    match decimalParts cs with
    | some (m, k) => Result.ok { negative := false, mantissa := m, scale := k }
    | none => Result.error (numError s)

end strconv

/-- A store with canned answers: the state holds the answer of every kind of call and is
left as it is by the calls. -/
structure Canned where
  createErr : Option GoError := none
  updateErr : Option GoError := none
  netperf : Result (Netperf strconv.Decimal) :=
    Result.error { Reason := "NotFound", Message := "netperfs \"bench\" not found" }
  pod : Pod × Option GoError := ({}, none)
  deleteErr : Option GoError := none
  logs : Result String := Result.ok ""

/-- The cluster over canned answers, with the decimal stand-in for `strconv.ParseFloat`
and the group and version of the Netperf resource type. -/
def cannedCluster : Cluster Canned strconv.Decimal where
  SchemeGroupVersion := { Group := "app.example.com", Version := "v1alpha1" }
  ParseFloat := strconv.ParseDecimal
  Create := fun _ s => (s.createErr, s)
  Update := fun _ s => (s.updateErr, s)
  GetNetperf := fun _ _ s => (s.netperf, s)
  GetPod := fun _ s => (s.pod, s)
  Delete := fun _ s => (s.deleteErr, s)
  GetLogs := fun _ _ s => (s.logs, s)


/-! ## Observing a trace -/

/-- The pods submitted for creation, in order. -/
def creates {F : Type} : List (Call F) → List Pod
  | [] => []
  | Call.Create pod _ :: rest => pod :: creates rest
  | _ :: rest => creates rest

/-- The pods submitted for deletion, in order. -/
def deletes {F : Type} : List (Call F) → List Pod
  | [] => []
  | Call.Delete pod _ :: rest => pod :: deletes rest
  | _ :: rest => deletes rest

/-- The requests submitted to `sdk.Update`, in order: the statuses written. -/
def writes {F : Type} : List (Call F) → List (Netperf F)
  | [] => []
  | Call.Update cr _ :: rest => cr :: writes rest
  | _ :: rest => writes rest

/-- The request a notification is about: the Netperf it carries, or the Netperf that the
store returns for the first owner reference of the pod it carries. -/
def requestOf {σ F : Type} (cl : Cluster σ F) (s : σ) (event : Event F) : Option (Netperf F) :=
  match event.Object with
  | Object.netperf o => some o
  | Object.pod pod =>
    match pod.OwnerReferences with
    | owner :: _ =>
      match (cl.GetNetperf owner.Name pod.Namespace s).1 with
      | Result.ok cr => some cr
      | Result.error _ => none
    | [] => none
  | Object.other _ => none

/-- A failed call that the handler reports to its caller: a creation that fails for
another reason than already-exists, a failed fetch of a pod, a failed deletion, and a
failed status update other than the one that records the client pod (phase Testing). -/
def reportedFailure {F : Type} : Call F → Bool
  | Call.Create _ err => err.isSome && !errors.IsAlreadyExists err
  | Call.Update cr err => err.isSome && decide (cr.Status.Status ≠ Phase.Test)
  | Call.GetNetperf _ _ _ => false
  | Call.GetPod _ res => res.2.isSome
  | Call.Delete _ err => err.isSome
  | Call.GetLogs _ _ _ => false

/-- Position of a phase in the order Initial < ServerScheduled < Testing < Done; Error
stands apart from that order. -/
def Phase.rank : Phase → Nat
  | Phase.Initial => 0
  | Phase.Server => 1
  | Phase.Test => 2
  | Phase.Done => 3
  | Phase.Error => 4

/-- The move from `old` to `new` is monotonic: `new` is Error, or neither is Error and `new`
is equal to or later than `old` in the order of the phases. -/
def Phase.advances (old new : Phase) : Prop :=
  new = Phase.Error ∨ (old ≠ Phase.Error ∧ old.rank ≤ new.rank)

instance (old new : Phase) : Decidable (Phase.advances old new) := by
  unfold Phase.advances
  infer_instance

/-! ## Sample objects -/

/-- The text at which `parseNetperfResult` looks for the throughput: the fifth
whitespace-separated field of the seventh line of the output. -/
def throughputField (result : String) : String :=
  (strings.Fields ((strings.Split result "\n").getD 6 "")).getD 4 ""

/-- A request with a well-formed UID, in the given phase and with the given recorded names. -/
def sampleRequest (phase : Phase) (serverPod clientPod : String) : Netperf strconv.Decimal :=
  { Name := "bench", Namespace := "default", UID := "0f3a9c52-7d1e-4b6a-9c55-3e8d2a71b604",
    Spec := {},
    Status := { Status := phase, ServerPod := serverPod, ClientPod := clientPod,
                SpeedBitsPerSec := { negative := false, mantissa := 0, scale := 0 } } }

/-- A pod owned by the sample request, with the given name, phase and address. -/
def samplePod (name phase podIP : String) : Pod :=
  { Kind := "Pod", APIVersion := "v1", Name := name, Namespace := "default",
    OwnerReferences :=
      [{ APIVersion := "app.example.com/v1alpha1", Kind := "Netperf", Name := "bench",
         UID := "0f3a9c52-7d1e-4b6a-9c55-3e8d2a71b604", Controller := some true,
         BlockOwnerDeletion := some true }],
    Status := { Phase := phase, PodIP := podIP } }

/-- The output of a netperf run: its seventh line is the data row. -/
def sampleReport : String :=
  "MIGRATED TCP STREAM TEST from 0.0.0.0 (0.0.0.0) port 0 AF_INET to 10.0.0.7 () port 0 AF_INET\n" ++
  "Recv   Send    Send\n" ++
  "Socket Socket  Message  Elapsed\n" ++
  "Size   Size    Size     Time     Throughput\n" ++
  "bytes  bytes   bytes    secs.    10^6bits/sec\n" ++
  "\n" ++
  " 87380  16384  16384    10.02     941.23\n"

/-- An output whose seventh line has a fifth field that is not a number. -/
def brokenReport : String :=
  "MIGRATED TCP STREAM TEST\nRecv   Send    Send\nSocket Socket  Message  Elapsed\n" ++
  "Size   Size    Size     Time     Throughput\nbytes  bytes   bytes    secs.    10^6bits/sec\n" ++
  "\n 87380  16384  16384    10.02     n/a\n"

/-- An error of the API server that is not an already-exists conflict. -/
def serverTimeout : GoError :=
  { Reason := "ServerTimeout", Message := "the server was unable to return a response in time" }

/-- The already-exists conflict of the API server. -/
def alreadyExists : GoError :=
  { Reason := "AlreadyExists", Message := "pods \"netperf-server-3e8d2a71b604\" already exists" }

/-- The name `getNetperfPodName` derives for the server pod of the sample request. -/
def sampleServerName : String := "netperf-server-3e8d2a71b604"

/-- The name `getNetperfPodName` derives for the client pod of the sample request. -/
def sampleClientName : String := "netperf-client-3e8d2a71b604"

/-- The sample request while the test runs: both pod names are recorded. -/
def testingRequest : Netperf strconv.Decimal :=
  sampleRequest Phase.Test sampleServerName sampleClientName

/-- The client pod of the sample request after its run has succeeded. -/
def succeededClient : Pod :=
  samplePod sampleClientName PodSucceeded "10.0.0.8"

/-- The server pod of the sample request while it runs. -/
def runningServer : Pod :=
  samplePod sampleServerName PodRunning "10.0.0.7"

/-- A store in which every call succeeds: it knows the server pod and holds the netperf
report as the log of the client pod. -/
def healthyStore (cr : Netperf strconv.Decimal) : Canned :=
  { netperf := Result.ok cr, pod := (runningServer, none), logs := Result.ok sampleReport }

/-- The seventh line that the parse contract of the specification quotes: the data row with
three more fields in front of it. -/
def quotedLine : String :=
  "TCP    STREAM   ...   87380  16384  16384    10.02     941.23"

/-- The data row of a netperf report as the tool prints it. -/
def dataRow : String :=
  "87380  16384  16384    10.02     941.23"

/-- A seven-line output whose seventh line is the quoted line. -/
def quotedReport : String :=
  "MIGRATED TCP STREAM TEST\nRecv   Send    Send\nSocket Socket  Message  Elapsed\n" ++
  "Size   Size    Size     Time     Throughput\nbytes  bytes   bytes    secs.    10^6bits/sec\n" ++
  "\n" ++ quotedLine

/-- The sample request in phase Error with both pod names recorded. -/
def erroredRequest : Netperf strconv.Decimal :=
  sampleRequest Phase.Error sampleServerName sampleClientName

/-- The sample request in phase Done with a recorded server pod and no recorded client
pod. -/
def doneWithoutClient : Netperf strconv.Decimal :=
  sampleRequest Phase.Done sampleServerName ""

/-- The sample request after the completion path: phase Done and the throughput of the
sample report. -/
def completedRequest : Netperf strconv.Decimal :=
  { testingRequest with
    Status := { testingRequest.Status with
      Status := Phase.Done,
      SpeedBitsPerSec := { negative := false, mantissa := 94123, scale := 2 } } }

/-- The sample request as it is created: phase Initial, no recorded names. -/
def initialRequest : Netperf strconv.Decimal :=
  sampleRequest Phase.Initial "" ""

/-- The server pod that `newNetperfPod` builds for the sample request. -/
def builtServer : Pod :=
  { Kind := "Pod", APIVersion := "v1", Name := sampleServerName, Namespace := "default",
    OwnerReferences :=
      [{ APIVersion := "app.example.com/v1alpha1", Kind := "Netperf", Name := "bench",
         UID := "0f3a9c52-7d1e-4b6a-9c55-3e8d2a71b604", Controller := some true,
         BlockOwnerDeletion := some true }],
    Labels := [("app", "netperf-operator"), ("netperf-type", "server")],
    Spec := { Containers := [{ Name := sampleServerName, Image := netperfImage, Command := [] }],
              RestartPolicy := RestartPolicyAlways, Affinity := none } }

/-- A call that fetches a Netperf. -/
def isGetNetperf {F : Type} : Call F → Bool
  | Call.GetNetperf _ _ _ => true
  | _ => false

/-! ## Names, placement and the life of a request -/

/-- Apply a function to the value a Go call returns. -/
def Outcome.map {α β : Type} (f : α → β) : Outcome α → Outcome β
  | Outcome.ret a => Outcome.ret (f a)
  | Outcome.panic p => Outcome.panic p

/-- The affinity that pins a pod to the node with the given hostname: a required node
affinity with one selector term holding one requirement. -/
def hostnameAffinity (node : String) : Affinity :=
  { NodeAffinity := some
      { RequiredDuringSchedulingIgnoredDuringExecution := some
          { NodeSelectorTerms :=
              [{ MatchExpressions :=
                  [{ Key := "kubernetes.io/hostname", Operator := "In", Values := [node] }] }] } } }

/-- The fragment of a UID that the pod names end in: the fifth of its pieces between
dashes. -/
def uidFragment (uid : String) : String :=
  (strings.Split uid "-").getD 4 ""

/-- A request with the given UID and placement hints, in phase Initial. -/
def requestWithUID (uid : String) (spec : NetperfSpec) : Netperf strconv.Decimal :=
  { Name := "bench", Namespace := "default", UID := uid, Spec := spec,
    Status := { Status := Phase.Initial, ServerPod := "", ClientPod := "",
                SpeedBitsPerSec := { negative := false, mantissa := 0, scale := 0 } } }

/-- The requests that a request can become while notifications about it are handled, in
any cluster and with any answers of the store: a notification about the current request
is handled, and the request stays as it is or becomes the object of a status update made
while handling it. -/
inductive Reaches {F : Type} (start : Netperf F) : Netperf F → Prop
  | refl : Reaches start start
  | step {σ : Type} (cl : Cluster σ F) (s : σ) (event : Event F) (cr n : Netperf F) :
      Reaches start cr → requestOf cl s event = some cr →
      n ∈ writes ((Handle cl event).run (s, [])).2.2 → Reaches start n

/-- The recorded names of `cr` are empty or the names derived for `start`, whose UID `cr`
has. -/
def NamesDerived {F : Type} (start cr : Netperf F) : Prop :=
  cr.UID = start.UID ∧
  (cr.Status.ServerPod = "" ∨
    getNetperfPodName start netperfTypeServer = Outcome.ret cr.Status.ServerPod) ∧
  (cr.Status.ClientPod = "" ∨
    getNetperfPodName start netperfTypeClient = Outcome.ret cr.Status.ClientPod)

/-- The request that `registerNetperfServer` writes: phase ServerScheduled and the server pod
recorded. -/
def withServerPod {F : Type} (cr : Netperf F) (name : String) : Netperf F :=
  { cr with Status := { cr.Status with Status := Phase.Server, ServerPod := name } }

/-- The request that `handleServerPodEvent` writes: phase Testing and the client pod
recorded. -/
def withClientPod {F : Type} (cr : Netperf F) (name : String) : Netperf F :=
  { cr with Status := { cr.Status with Status := Phase.Test, ClientPod := name } }

/-- The request that `handleClientPodEvent` writes at the end of the completion path:
the throughput and phase Done. -/
def withThroughput {F : Type} (cr : Netperf F) (throughput : F) : Netperf F :=
  { cr with Status := { cr.Status with SpeedBitsPerSec := throughput, Status := Phase.Done } }

/-- A pod as the cluster reports it once it has the given phase and address. -/
def observed (pod : Pod) (phase podIP : String) : Pod :=
  { pod with Status := { Phase := phase, PodIP := podIP } }

/-- The sample request after its server pod is registered. -/
def scheduledRequest : Netperf strconv.Decimal :=
  sampleRequest Phase.Server sampleServerName ""

/-- The client pod that `newNetperfPod` builds for the sample request once its server pod
runs at `10.0.0.7`. -/
def builtClient : Pod :=
  { Kind := "Pod", APIVersion := "v1", Name := sampleClientName, Namespace := "default",
    OwnerReferences :=
      [{ APIVersion := "app.example.com/v1alpha1", Kind := "Netperf", Name := "bench",
         UID := "0f3a9c52-7d1e-4b6a-9c55-3e8d2a71b604", Controller := some true,
         BlockOwnerDeletion := some true }],
    Labels := [("app", "netperf-operator"), ("netperf-type", "client")],
    Spec := { Containers := [{ Name := sampleClientName, Image := netperfImage,
                               Command := ["netperf", "-H", "10.0.0.7"] }],
              RestartPolicy := RestartPolicyOnFailure, Affinity := none } }

/-- A store for the last step of the sample run: every call succeeds, the store knows the
request and the running server pod, and the log of the client pod is the sample report. -/
def scenarioStore (cr : Netperf strconv.Decimal) : Canned :=
  { netperf := Result.ok cr, pod := (observed builtServer PodRunning "10.0.0.7", none),
    logs := Result.ok sampleReport }

section Theorems

variable {σ F : Type}

/-! ### Stepping through a run -/

@[simp]
theorem run_pure {α : Type} (a : α) (w : σ × List (Call F)) :
    (pure a : Run σ F α).run w = (Outcome.ret a, w) := rfl

@[simp]
theorem run_lift {α : Type} (o : Outcome α) (w : σ × List (Call F)) :
    (Run.lift o : Run σ F α).run w = (o, w) := rfl

@[simp]
theorem run_pure_bind {α β : Type} (a : α) (f : α → Run σ F β) :
    (pure a >>= f : Run σ F β) = f a := rfl

@[simp]
theorem run_bind_assoc {α β γ : Type} (m : Run σ F α) (f : α → Run σ F β)
    (g : β → Run σ F γ) :
    ((m >>= f) >>= g : Run σ F γ) = m >>= fun a => f a >>= g := by
  show Run.bind (Run.bind m f) g = Run.bind m (fun a => Run.bind (f a) g)
  unfold Run.bind
  congr 1
  funext w
  dsimp only
  generalize m.run w = x
  rcases x with ⟨o, w'⟩
  cases o <;> rfl

@[simp]
theorem run_lift_bind {α β : Type} (o : Outcome α) (f : α → Run σ F β)
    (w : σ × List (Call F)) :
    (Run.lift o >>= f).run w =
      match o with
      | Outcome.ret a => (f a).run w
      | Outcome.panic p => (Outcome.panic p, w) := by
  cases o <;> rfl

@[simp]
theorem run_create (cl : Cluster σ F) (pod : Pod) (w : σ × List (Call F)) :
    (sdk.Create cl pod).run w =
      (Outcome.ret (cl.Create pod w.1).1,
        ((cl.Create pod w.1).2, w.2 ++ [Call.Create pod (cl.Create pod w.1).1])) := rfl

@[simp]
theorem run_create_bind {β : Type} (cl : Cluster σ F) (pod : Pod)
    (k : Option GoError → Run σ F β) (w : σ × List (Call F)) :
    (sdk.Create cl pod >>= k).run w =
      (k (cl.Create pod w.1).1).run
        ((cl.Create pod w.1).2, w.2 ++ [Call.Create pod (cl.Create pod w.1).1]) := rfl

@[simp]
theorem run_update (cl : Cluster σ F) (cr : Netperf F) (w : σ × List (Call F)) :
    (sdk.Update cl cr).run w =
      (Outcome.ret (cl.Update cr w.1).1,
        ((cl.Update cr w.1).2, w.2 ++ [Call.Update cr (cl.Update cr w.1).1])) := rfl

@[simp]
theorem run_update_bind {β : Type} (cl : Cluster σ F) (cr : Netperf F)
    (k : Option GoError → Run σ F β) (w : σ × List (Call F)) :
    (sdk.Update cl cr >>= k).run w =
      (k (cl.Update cr w.1).1).run
        ((cl.Update cr w.1).2, w.2 ++ [Call.Update cr (cl.Update cr w.1).1]) := rfl

@[simp]
theorem run_getNetperf_bind {β : Type} (cl : Cluster σ F) (name ns : String)
    (k : Result (Netperf F) → Run σ F β) (w : σ × List (Call F)) :
    (sdk.GetNetperf cl name ns >>= k).run w =
      (k (cl.GetNetperf name ns w.1).1).run
        ((cl.GetNetperf name ns w.1).2,
          w.2 ++ [Call.GetNetperf name ns (cl.GetNetperf name ns w.1).1]) := rfl

@[simp]
theorem run_getPod_bind {β : Type} (cl : Cluster σ F) (into : Pod)
    (k : Pod × Option GoError → Run σ F β) (w : σ × List (Call F)) :
    (sdk.GetPod cl into >>= k).run w =
      (k (cl.GetPod into w.1).1).run
        ((cl.GetPod into w.1).2, w.2 ++ [Call.GetPod into (cl.GetPod into w.1).1]) := rfl

@[simp]
theorem run_delete_bind {β : Type} (cl : Cluster σ F) (pod : Pod)
    (k : Option GoError → Run σ F β) (w : σ × List (Call F)) :
    (sdk.Delete cl pod >>= k).run w =
      (k (cl.Delete pod w.1).1).run
        ((cl.Delete pod w.1).2, w.2 ++ [Call.Delete pod (cl.Delete pod w.1).1]) := rfl

@[simp]
theorem run_getLogs_bind {β : Type} (cl : Cluster σ F) (ns name : String)
    (k : Result String → Run σ F β) (w : σ × List (Call F)) :
    (sdk.GetLogs cl ns name >>= k).run w =
      (k (cl.GetLogs ns name w.1).1).run
        ((cl.GetLogs ns name w.1).2, w.2 ++ [Call.GetLogs ns name (cl.GetLogs ns name w.1).1]) :=
  rfl

/-! ### Observers of a trace -/

@[simp]
theorem creates_append (xs ys : List (Call F)) :
    creates (xs ++ ys) = creates xs ++ creates ys := by
  induction xs with
  | nil => rfl
  | cons c rest ih => cases c <;> simp [creates, ih]

@[simp]
theorem deletes_append (xs ys : List (Call F)) :
    deletes (xs ++ ys) = deletes xs ++ deletes ys := by
  induction xs with
  | nil => rfl
  | cons c rest ih => cases c <;> simp [deletes, ih]

@[simp]
theorem writes_append (xs ys : List (Call F)) :
    writes (xs ++ ys) = writes xs ++ writes ys := by
  induction xs with
  | nil => rfl
  | cons c rest ih => cases c <;> simp [writes, ih]

/-- Every status the client handler writes has phase Done and the recorded names of the
request, and it writes only for a request that is not Done. -/
theorem handleClientPodEvent_writes (cl : Cluster σ F) (cr : Netperf F) (pod : Pod)
    (w : σ × List (Call F)) :
    ∀ n ∈ writes ((handleClientPodEvent cl cr pod).run w).2.2,
      n ∈ writes w.2 ∨
        (n.Status.Status = Phase.Done ∧ cr.Status.Status ≠ Phase.Done ∧
          n.Status.ServerPod = cr.Status.ServerPod ∧
          n.Status.ClientPod = cr.Status.ClientPod) := by
  obtain ⟨s, tr⟩ := w
  unfold handleClientPodEvent
  split_ifs with h1 h2
  · simp +contextual
  · simp only [getLogFromClientPod, updateNetperfStatus, getPodByName, run_bind_assoc,
      run_getLogs_bind]
    repeat' (split <;> try simp)
    all_goals simp_all +contextual [writes, or_imp, forall_and]
  · simp +contextual


/-! ### What each handler writes, creates and reports -/

theorem handleClientPodEvent_creates (cl : Cluster σ F) (cr : Netperf F) (pod : Pod)
    (w : σ × List (Call F)) :
    creates ((handleClientPodEvent cl cr pod).run w).2.2 = creates w.2 := by
  obtain ⟨s, tr⟩ := w
  unfold handleClientPodEvent
  split_ifs with h1 h2
  · simp
  · simp only [getLogFromClientPod, updateNetperfStatus, getPodByName, run_bind_assoc,
      run_getLogs_bind]
    repeat' (split <;> try simp)
    all_goals simp_all [creates]
  · simp

theorem handleClientPodEvent_reports (cl : Cluster σ F) (cr : Netperf F) (pod : Pod)
    (w : σ × List (Call F)) :
    ∀ c ∈ ((handleClientPodEvent cl cr pod).run w).2.2,
      c ∈ w.2 ∨ (reportedFailure c = true →
        ∃ e, ((handleClientPodEvent cl cr pod).run w).1 = Outcome.ret (some e)) := by
  obtain ⟨s, tr⟩ := w
  unfold handleClientPodEvent
  split_ifs with h1 h2
  · simp +contextual
  · simp only [getLogFromClientPod, updateNetperfStatus, getPodByName, run_bind_assoc,
      run_getLogs_bind]
    repeat' (split <;> try simp)
    all_goals simp_all +contextual [reportedFailure, or_imp, forall_and, Option.isSome_iff_exists]
  · simp +contextual

theorem handleClientPodEvent_noop (cl : Cluster σ F) (cr : Netperf F) (pod : Pod)
    (w : σ × List (Call F)) (hdone : cr.Status.Status = Phase.Done) :
    (handleClientPodEvent cl cr pod).run w = (Outcome.ret none, w) := by
  unfold handleClientPodEvent
  split_ifs with h1 h2
  · rfl
  · exact absurd hdone h2.2
  · rfl

theorem handleServerPodEvent_noop (cl : Cluster σ F) (cr : Netperf F) (pod : Pod)
    (w : σ × List (Call F)) (hclient : cr.Status.ClientPod ≠ "") :
    (handleServerPodEvent cl cr pod).run w = (Outcome.ret none, w) := by
  unfold handleServerPodEvent
  split_ifs with h1 <;> rfl

theorem handleServerPodEvent_writes (cl : Cluster σ F) (cr : Netperf F) (pod : Pod)
    (w : σ × List (Call F)) :
    ∀ n ∈ writes ((handleServerPodEvent cl cr pod).run w).2.2,
      n ∈ writes w.2 ∨
        (n.Status.Status = Phase.Test ∧ cr.Status.ClientPod = "" ∧
          n.Status.ServerPod = cr.Status.ServerPod) := by
  obtain ⟨s, tr⟩ := w
  unfold handleServerPodEvent
  split_ifs with h1 h2
  · simp +contextual
  · simp +contextual
  · simp only [run_lift_bind]
    repeat' (split <;> try simp)
    all_goals simp_all +contextual [writes, or_imp, forall_and]

theorem handleServerPodEvent_reports (cl : Cluster σ F) (cr : Netperf F) (pod : Pod)
    (w : σ × List (Call F)) :
    ∀ c ∈ ((handleServerPodEvent cl cr pod).run w).2.2,
      c ∈ w.2 ∨ (reportedFailure c = true →
        ∃ e, ((handleServerPodEvent cl cr pod).run w).1 = Outcome.ret (some e)) := by
  obtain ⟨s, tr⟩ := w
  unfold handleServerPodEvent
  split_ifs with h1 h2
  · simp +contextual
  · simp +contextual
  · simp only [run_lift_bind]
    repeat' (split <;> try simp)
    all_goals first
      | (simp_all +contextual [reportedFailure, or_imp, forall_and, Option.isSome_iff_exists]
         done)
      | (simp_all +contextual [reportedFailure, or_imp, forall_and, Option.isSome_iff_exists]
         right
         intro x hx
         simp_all)

theorem startServerPod_writes (cl : Cluster σ F) (cr : Netperf F) (w : σ × List (Call F)) :
    ∀ n ∈ writes ((startServerPod cl cr).run w).2.2,
      n ∈ writes w.2 ∨
        (n.Status.Status = Phase.Server ∧ n.Status.ClientPod = cr.Status.ClientPod) := by
  obtain ⟨s, tr⟩ := w
  unfold startServerPod
  simp only [run_lift_bind, registerNetperfServer]
  repeat' (split <;> try simp)
  all_goals simp_all +contextual [writes, or_imp, forall_and]

theorem startServerPod_reports (cl : Cluster σ F) (cr : Netperf F) (w : σ × List (Call F)) :
    ∀ c ∈ ((startServerPod cl cr).run w).2.2,
      c ∈ w.2 ∨ (reportedFailure c = true →
        ∃ e, ((startServerPod cl cr).run w).1 = Outcome.ret (some e)) := by
  obtain ⟨s, tr⟩ := w
  unfold startServerPod
  simp only [run_lift_bind, registerNetperfServer]
  repeat' (split <;> try simp)
  all_goals first
    | (simp_all +contextual [reportedFailure, or_imp, forall_and, Option.isSome_iff_exists]
       done)
    | (simp_all +contextual [reportedFailure, or_imp, forall_and, Option.isSome_iff_exists]
       right
       intro x hx
       simp_all)


/-! ### The dispatch of `Handle` -/

theorem Handle_pod_orphan (cl : Cluster σ F) (p : Pod) (deleted : Bool)
    (w : σ × List (Call F)) (hown : p.OwnerReferences = []) :
    (Handle cl ⟨Object.pod p, deleted⟩).run w = (Outcome.panic GoPanic.indexOutOfRange, w) := by
  simp [Handle, index, hown]

theorem Handle_pod_foreign (cl : Cluster σ F) (p : Pod) (deleted : Bool)
    (w : σ × List (Call F)) (owner : OwnerReference) (rest : List OwnerReference)
    (hown : p.OwnerReferences = owner :: rest) (hkind : owner.Kind ≠ "Netperf") :
    (Handle cl ⟨Object.pod p, deleted⟩).run w = (Outcome.ret none, w) := by
  simp [Handle, index, hown, hkind]

theorem Handle_pod_fetch_failed (cl : Cluster σ F) (p : Pod) (deleted : Bool)
    (s : σ) (tr : List (Call F)) (owner : OwnerReference) (rest : List OwnerReference)
    (e : GoError) (hown : p.OwnerReferences = owner :: rest) (hkind : owner.Kind = "Netperf")
    (hget : (cl.GetNetperf owner.Name p.Namespace s).1 = Result.error e) :
    (Handle cl ⟨Object.pod p, deleted⟩).run (s, tr) =
      (Outcome.ret none,
        ((cl.GetNetperf owner.Name p.Namespace s).2,
          tr ++ [Call.GetNetperf owner.Name p.Namespace (Result.error e)])) := by
  simp [Handle, handlePodUpdateEvent, getNetperfByName, index, hown, hkind, hget]

theorem Handle_pod (cl : Cluster σ F) (p : Pod) (deleted : Bool)
    (s : σ) (tr : List (Call F)) (owner : OwnerReference) (rest : List OwnerReference)
    (cr : Netperf F) (hown : p.OwnerReferences = owner :: rest)
    (hkind : owner.Kind = "Netperf")
    (hget : (cl.GetNetperf owner.Name p.Namespace s).1 = Result.ok cr) :
    (Handle cl ⟨Object.pod p, deleted⟩).run (s, tr) =
      if p.Name = cr.Status.ClientPod then
        (handleClientPodEvent cl cr p).run
          ((cl.GetNetperf owner.Name p.Namespace s).2,
            tr ++ [Call.GetNetperf owner.Name p.Namespace (Result.ok cr)])
      else if p.Name = cr.Status.ServerPod then
        (handleServerPodEvent cl cr p).run
          ((cl.GetNetperf owner.Name p.Namespace s).2,
            tr ++ [Call.GetNetperf owner.Name p.Namespace (Result.ok cr)])
      else
        (Outcome.ret none,
          ((cl.GetNetperf owner.Name p.Namespace s).2,
            tr ++ [Call.GetNetperf owner.Name p.Namespace (Result.ok cr)])) := by
  simp only [Handle, handlePodUpdateEvent, getNetperfByName, index, hown, List.getElem?_cons_zero,
    run_lift_bind, run_getNetperf_bind, hget, hkind]
  split_ifs <;> simp_all


/-! ### What `Handle` writes, creates and reports -/

theorem Handle_writes (cl : Cluster σ F) (event : Event F) (s : σ) (cr : Netperf F)
    (hreq : requestOf cl s event = some cr) :
    ∀ n ∈ writes ((Handle cl event).run (s, [])).2.2,
      (n.Status.Status = Phase.Server ∧
          (cr.Status.Status = Phase.Initial ∨ cr.Status.Status = Phase.Server) ∧
          n.Status.ClientPod = cr.Status.ClientPod) ∨
      (n.Status.Status = Phase.Test ∧ cr.Status.ClientPod = "" ∧
          n.Status.ServerPod = cr.Status.ServerPod) ∨
      (n.Status.Status = Phase.Done ∧ cr.Status.Status ≠ Phase.Done ∧
          n.Status.ServerPod = cr.Status.ServerPod ∧
          n.Status.ClientPod = cr.Status.ClientPod) := by
  obtain ⟨obj, deleted⟩ := event
  cases obj with
  | netperf o =>
    simp only [requestOf, Option.some.injEq] at hreq
    subst hreq
    intro n hn
    simp only [Handle, deleteNetperfPods, handleNetperfUpdateEvent] at hn
    split_ifs at hn with hd
    · simp [writes] at hn
    · split at hn
      · rename_i hp
        rcases startServerPod_writes cl o (s, []) n hn with h | h
        · simp [writes] at h
        · exact Or.inl ⟨h.1, Or.inl hp, h.2⟩
      · rename_i hp
        rcases startServerPod_writes cl o (s, []) n hn with h | h
        · simp [writes] at h
        · exact Or.inl ⟨h.1, Or.inr hp, h.2⟩
      · simp [writes] at hn
  | other k => simp [Handle, writes]
  | pod p =>
    simp only [requestOf] at hreq
    cases hown : p.OwnerReferences with
    | nil => simp [hown] at hreq
    | cons owner rest =>
      simp only [hown] at hreq
      cases hget : (cl.GetNetperf owner.Name p.Namespace s).1 with
      | error e => simp [hget] at hreq
      | ok cr' =>
        simp only [hget, Option.some.injEq] at hreq
        subst hreq
        intro n hn
        by_cases hkind : owner.Kind = "Netperf"
        · rw [Handle_pod cl p deleted s [] owner rest cr' hown hkind hget] at hn
          split_ifs at hn with hc hs
          · rcases handleClientPodEvent_writes cl cr' p _ n hn with h | h
            · simp [writes] at h
            · exact Or.inr (Or.inr h)
          · rcases handleServerPodEvent_writes cl cr' p _ n hn with h | h
            · simp [writes] at h
            · exact Or.inr (Or.inl h)
          · simp [writes] at hn
        · rw [Handle_pod_foreign cl p deleted (s, []) owner rest hown hkind] at hn
          simp [writes] at hn

theorem Handle_creates (cl : Cluster σ F) (event : Event F) (s : σ) (cr : Netperf F)
    (hreq : requestOf cl s event = some cr)
    (hphase : cr.Status.Status ≠ Phase.Initial ∧ cr.Status.Status ≠ Phase.Server)
    (hclient : cr.Status.ClientPod ≠ "") :
    creates ((Handle cl event).run (s, [])).2.2 = [] := by
  obtain ⟨obj, deleted⟩ := event
  cases obj with
  | netperf o =>
    simp only [requestOf, Option.some.injEq] at hreq
    subst hreq
    simp only [Handle, deleteNetperfPods, handleNetperfUpdateEvent]
    split_ifs with hd
    · simp [creates]
    · split
      · rename_i hp
        exact absurd hp hphase.1
      · rename_i hp
        exact absurd hp hphase.2
      · simp [creates]
  | other k => simp [Handle, creates]
  | pod p =>
    simp only [requestOf] at hreq
    cases hown : p.OwnerReferences with
    | nil => simp [hown] at hreq
    | cons owner rest =>
      simp only [hown] at hreq
      cases hget : (cl.GetNetperf owner.Name p.Namespace s).1 with
      | error e => simp [hget] at hreq
      | ok cr' =>
        simp only [hget, Option.some.injEq] at hreq
        subst hreq
        by_cases hkind : owner.Kind = "Netperf"
        · rw [Handle_pod cl p deleted s [] owner rest cr' hown hkind hget]
          split_ifs with hc hs
          · rw [handleClientPodEvent_creates]
            simp [creates]
          · rw [handleServerPodEvent_noop cl cr' p _ hclient]
            simp [creates]
          · simp [creates]
        · rw [Handle_pod_foreign cl p deleted (s, []) owner rest hown hkind]
          simp [creates]

theorem Handle_reports (cl : Cluster σ F) (event : Event F) (s : σ) :
    ∀ c ∈ ((Handle cl event).run (s, [])).2.2, reportedFailure c = true →
      ∃ e, ((Handle cl event).run (s, [])).1 = Outcome.ret (some e) := by
  obtain ⟨obj, deleted⟩ := event
  cases obj with
  | netperf o =>
    intro c hc hf
    simp only [Handle, deleteNetperfPods, handleNetperfUpdateEvent] at hc ⊢
    split_ifs at hc ⊢ with hd
    · simp at hc
    · split at hc <;> rename_i hp
      · rcases startServerPod_reports cl o (s, []) c hc with h | h
        · simp at h
        · exact h hf
      · rcases startServerPod_reports cl o (s, []) c hc with h | h
        · simp at h
        · exact h hf
      · simp at hc
  | other k => simp [Handle]
  | pod p =>
    intro c hc hf
    cases hown : p.OwnerReferences with
    | nil =>
      rw [Handle_pod_orphan cl p deleted (s, []) hown] at hc
      simp at hc
    | cons owner rest =>
      by_cases hkind : owner.Kind = "Netperf"
      · cases hget : (cl.GetNetperf owner.Name p.Namespace s).1 with
        | error e =>
          rw [Handle_pod_fetch_failed cl p deleted s [] owner rest e hown hkind hget] at hc
          simp at hc
          subst hc
          simp [reportedFailure] at hf
        | ok cr =>
          rw [Handle_pod cl p deleted s [] owner rest cr hown hkind hget] at hc ⊢
          split_ifs at hc ⊢ with h1 h2
          · rcases handleClientPodEvent_reports cl cr p _ c hc with h | h
            · simp at h
              subst h
              simp [reportedFailure] at hf
            · exact h hf
          · rcases handleServerPodEvent_reports cl cr p _ c hc with h | h
            · simp at h
              subst h
              simp [reportedFailure] at hf
            · exact h hf
          · simp at hc
            subst hc
            simp [reportedFailure] at hf
      · rw [Handle_pod_foreign cl p deleted (s, []) owner rest hown hkind] at hc
        simp at hc

theorem handleClientPodEvent_fetches (cl : Cluster σ F) (cr : Netperf F) (pod : Pod)
    (w : σ × List (Call F)) :
    ∀ c ∈ ((handleClientPodEvent cl cr pod).run w).2.2, c ∈ w.2 ∨ isGetNetperf c = false := by
  obtain ⟨s, tr⟩ := w
  unfold handleClientPodEvent
  split_ifs with h1 h2
  · simp +contextual
  · simp only [getLogFromClientPod, updateNetperfStatus, getPodByName, run_bind_assoc,
      run_getLogs_bind]
    repeat' (split <;> try simp)
    all_goals simp_all +contextual [isGetNetperf, or_imp, forall_and]
  · simp +contextual

theorem handleServerPodEvent_fetches (cl : Cluster σ F) (cr : Netperf F) (pod : Pod)
    (w : σ × List (Call F)) :
    ∀ c ∈ ((handleServerPodEvent cl cr pod).run w).2.2, c ∈ w.2 ∨ isGetNetperf c = false := by
  obtain ⟨s, tr⟩ := w
  unfold handleServerPodEvent
  split_ifs with h1 h2
  · simp +contextual
  · simp +contextual
  · simp only [run_lift_bind]
    repeat' (split <;> try simp)
    all_goals simp_all +contextual [isGetNetperf, or_imp, forall_and]

theorem startServerPod_fetches (cl : Cluster σ F) (cr : Netperf F) (w : σ × List (Call F)) :
    ∀ c ∈ ((startServerPod cl cr).run w).2.2, c ∈ w.2 ∨ isGetNetperf c = false := by
  obtain ⟨s, tr⟩ := w
  unfold startServerPod
  simp only [run_lift_bind, registerNetperfServer]
  repeat' (split <;> try simp)
  all_goals simp_all +contextual [isGetNetperf, or_imp, forall_and]

theorem Handle_fetch_failed (cl : Cluster σ F) (event : Event F) (s : σ)
    (name ns : String) (e : GoError)
    (hc : Call.GetNetperf name ns (Result.error e) ∈ ((Handle cl event).run (s, [])).2.2) :
    ((Handle cl event).run (s, [])).1 = Outcome.ret none := by
  obtain ⟨obj, deleted⟩ := event
  cases obj with
  | netperf o =>
    simp only [Handle, deleteNetperfPods, handleNetperfUpdateEvent] at hc ⊢
    split_ifs at hc ⊢ with hd
    · simp
    · split at hc
      · rcases startServerPod_fetches cl o (s, []) _ hc with h | h
        · simp at h
        · simp [isGetNetperf] at h
      · rcases startServerPod_fetches cl o (s, []) _ hc with h | h
        · simp at h
        · simp [isGetNetperf] at h
      · simp at hc
  | other k => simp [Handle]
  | pod p =>
    cases hown : p.OwnerReferences with
    | nil =>
      rw [Handle_pod_orphan cl p deleted (s, []) hown] at hc
      simp at hc
    | cons owner rest =>
      by_cases hkind : owner.Kind = "Netperf"
      · cases hget : (cl.GetNetperf owner.Name p.Namespace s).1 with
        | error e' =>
          rw [Handle_pod_fetch_failed cl p deleted s [] owner rest e' hown hkind hget]
        | ok cr =>
          rw [Handle_pod cl p deleted s [] owner rest cr hown hkind hget] at hc ⊢
          split_ifs at hc ⊢ with h1 h2
          · rcases handleClientPodEvent_fetches cl cr p _ _ hc with h | h
            · simp at h
            · simp [isGetNetperf] at h
          · rcases handleServerPodEvent_fetches cl cr p _ _ hc with h | h
            · simp at h
            · simp [isGetNetperf] at h
          · simp at hc
      · rw [Handle_pod_foreign cl p deleted (s, []) owner rest hown hkind]

/-! ### The library routines on small inputs -/

/-- The split keeps empty pieces, also a trailing one, and cuts at occurrences found from
the left; with an empty separator it cuts after every character. -/
theorem Split_examples :
    strings.Split "a--b-" "-" = ["a", "", "b", ""] ∧
    strings.Split "" "\n" = [""] ∧
    strings.Split "abaXabab" "ab" = ["", "aX", "", ""] ∧
    strings.Split "abc" "" = ["a", "b", "c"] ∧
    strings.Split "0f3a9c52-7d1e-4b6a-9c55-3e8d2a71b604" "-" =
      ["0f3a9c52", "7d1e", "4b6a", "9c55", "3e8d2a71b604"] := by
  decide

/-- The fields of a text are its maximal runs of non-space characters. -/
theorem Fields_examples :
    strings.Fields "  ab  c\td " = ["ab", "c", "d"] ∧
    strings.Fields "" = [] ∧
    strings.Fields " \n\r " = [] ∧
    strings.Fields dataRow = ["87380", "16384", "16384", "10.02", "941.23"] := by
  decide

/-- The pod built for the server role of the sample request. -/
theorem newNetperfPod_sample :
    newNetperfPod cannedCluster.SchemeGroupVersion initialRequest netperfTypeServer
      RestartPolicyAlways [] = Outcome.ret builtServer := by
  decide

/-! ### Lines of a text -/

theorem isPrefixOf_newline (c : Char) (cs : List Char) :
    List.isPrefixOf ['\n'] (c :: cs) = decide (c = '\n') := by
  have h0 : List.isPrefixOf ['\n'] (c :: cs) = (('\n' == c) && List.isPrefixOf [] cs) := rfl
  rw [h0]
  by_cases h : c = '\n'
  · subst h
    simp [List.isPrefixOf]
  · have h' : ¬ ('\n' = c) := fun e => h e.symm
    simp [h, h']

theorem splitGo_line (l rest cur : List Char) (h : '\n' ∉ l) :
    strings.splitGo ['\n'] (l ++ '\n' :: rest) 0 cur =
      (cur.reverse ++ l) :: strings.splitGo ['\n'] rest 0 [] := by
  induction l generalizing cur with
  | nil => simp [strings.splitGo, isPrefixOf_newline]
  | cons c cs ih =>
    have hc : c ≠ '\n' := fun e => h (by simp [e])
    have hcs : '\n' ∉ cs := fun e => h (by simp [e])
    simp [strings.splitGo, isPrefixOf_newline, hc, ih (c :: cur) hcs]

/-- A line without a newline, followed by a newline, is the first piece of the split. -/
theorem Split_line (l rest : String) (h : '\n' ∉ l.data) :
    strings.Split (l ++ "\n" ++ rest) "\n" = l :: strings.Split rest "\n" := by
  have := splitGo_line l.data rest.data [] h
  simp [strings.Split, strings.SplitChars, String.data_append] at *
  simp [this]

/-- Six lines in front of a text are the first six pieces of its split. -/
theorem Split_seven (l0 l1 l2 l3 l4 l5 line : String)
    (h : ∀ l ∈ [l0, l1, l2, l3, l4, l5], '\n' ∉ l.data) :
    strings.Split
        (l0 ++ "\n" ++ l1 ++ "\n" ++ l2 ++ "\n" ++ l3 ++ "\n" ++ l4 ++ "\n" ++ l5 ++ "\n" ++ line)
        "\n" =
      l0 :: l1 :: l2 :: l3 :: l4 :: l5 :: strings.Split line "\n" := by
  simp only [List.mem_cons, List.mem_singleton, forall_eq_or_imp, forall_eq,
    List.not_mem_nil] at h
  obtain ⟨h0, h1, h2, h3, h4, h5, -⟩ := h
  simp only [String.append_assoc]
  simp only [← String.append_assoc _ "\n"]
  rw [Split_line _ _ h0, Split_line _ _ h1, Split_line _ _ h2, Split_line _ _ h3,
    Split_line _ _ h4, Split_line _ _ h5]

/-! ## The completion path of the client handler -/

/-- C1 (defect in the code): on the completion path, a failure is followed by a status
update that is meant to record phase Error, but `updateNetperfStatus` ignores its `status`
argument.  For the sample request in phase Testing, a succeeded client pod and an output
whose throughput field is not a number, the handler returns the conversion error and the
one status it writes has phase Done, not Error. -/
theorem handleClientPodEvent_failure_writes_done :
    ((handleClientPodEvent cannedCluster testingRequest succeededClient).run
        ({ logs := Result.ok brokenReport }, [])).1 =
      Outcome.ret (some (fmt.Errorf "error trying to convert test result to float: "
        (strconv.numError "n/a"))) ∧
    writes ((handleClientPodEvent cannedCluster testingRequest succeededClient).run
        ({ logs := Result.ok brokenReport }, [])).2.2 =
      [sampleRequest Phase.Done sampleServerName sampleClientName] := by
  decide

/-- C2: for a request that is not Done and a succeeded client pod whose output parses to
`t`, when the fetch of the server pod and both deletions succeed, the handler makes
exactly these calls, in this order: it reads the log, fetches the pod recorded as server
pod, deletes the client pod, deletes the fetched server pod, and writes one status, which
has phase Done and throughput `t` and leaves everything else, the two recorded names
included, as it was; it returns what that update returns. -/
theorem handleClientPodEvent_done (cl : Cluster σ F) (cr : Netperf F) (pod serverPod : Pod)
    (s s1 s2 s3 s4 : σ) (tr : List (Call F)) (res : String) (t : F)
    (hphase : cr.Status.Status ≠ Phase.Done)
    (hpod : pod.Status.Phase = PodSucceeded)
    (hlogs : cl.GetLogs pod.Namespace pod.Name s = (Result.ok res, s1))
    (hparse : parseNetperfResult cl.ParseFloat res = Outcome.ret (Result.ok t))
    (hget : cl.GetPod { Kind := "Pod", APIVersion := "v1", Name := cr.Status.ServerPod,
                        Namespace := cr.Namespace } s1 = ((serverPod, none), s2))
    (hdel1 : cl.Delete pod s2 = (none, s3))
    (hdel2 : cl.Delete serverPod s3 = (none, s4)) :
    ∃ done : Netperf F,
      done.Status.Status = Phase.Done ∧ done.Status.SpeedBitsPerSec = t ∧
      done.Status.ServerPod = cr.Status.ServerPod ∧
      done.Status.ClientPod = cr.Status.ClientPod ∧
      done.Name = cr.Name ∧ done.Namespace = cr.Namespace ∧ done.UID = cr.UID ∧
      done.Spec = cr.Spec ∧
      (handleClientPodEvent cl cr pod).run (s, tr) =
        (Outcome.ret (cl.Update done s4).1,
          ((cl.Update done s4).2,
            tr ++ [Call.GetLogs pod.Namespace pod.Name (Result.ok res),
                   Call.GetPod { Kind := "Pod", APIVersion := "v1",
                                 Name := cr.Status.ServerPod, Namespace := cr.Namespace }
                     (serverPod, none),
                   Call.Delete pod none,
                   Call.Delete serverPod none,
                   Call.Update done (cl.Update done s4).1])) := by
  refine ⟨{ cr with Status := { cr.Status with SpeedBitsPerSec := t, Status := Phase.Done } },
    rfl, rfl, rfl, rfl, rfl, rfl, rfl, rfl, ?_⟩
  have hne : ¬ (PodSucceeded = PodRunning) := by decide
  simp [handleClientPodEvent, hpod, hne, hphase, getLogFromClientPod, hlogs, hparse,
    getPodByName, hget, hdel1, hdel2]

/-- Witness for C2: the sample request in phase Testing, its succeeded client pod and a
store in which every call succeeds and the log is the sample report. -/
theorem handleClientPodEvent_done_witness :
    ∃ done : Netperf strconv.Decimal,
      done.Status.Status = Phase.Done ∧
      done.Status.SpeedBitsPerSec = { negative := false, mantissa := 94123, scale := 2 } ∧
      done.Status.ServerPod = testingRequest.Status.ServerPod ∧
      done.Status.ClientPod = testingRequest.Status.ClientPod ∧
      done.Name = testingRequest.Name ∧ done.Namespace = testingRequest.Namespace ∧
      done.UID = testingRequest.UID ∧ done.Spec = testingRequest.Spec ∧
      (handleClientPodEvent cannedCluster testingRequest succeededClient).run
          (healthyStore testingRequest, []) =
        (Outcome.ret (cannedCluster.Update done (healthyStore testingRequest)).1,
          ((cannedCluster.Update done (healthyStore testingRequest)).2,
            [] ++ [Call.GetLogs succeededClient.Namespace succeededClient.Name
                     (Result.ok sampleReport),
                   Call.GetPod { Kind := "Pod", APIVersion := "v1",
                                 Name := testingRequest.Status.ServerPod,
                                 Namespace := testingRequest.Namespace }
                     (runningServer, none),
                   Call.Delete succeededClient none,
                   Call.Delete runningServer none,
                   Call.Update done
                     (cannedCluster.Update done (healthyStore testingRequest)).1])) :=
  handleClientPodEvent_done cannedCluster testingRequest succeededClient runningServer
    (healthyStore testingRequest) (healthyStore testingRequest) (healthyStore testingRequest)
    (healthyStore testingRequest) (healthyStore testingRequest) [] sampleReport
    { negative := false, mantissa := 94123, scale := 2 }
    (by decide) (by decide) rfl (by decide) rfl rfl rfl


/-! ## Result parsing -/

/-- An output with fewer than seven lines makes `lines[6]` panic. -/
theorem parseNetperfResult_short (pf : String → Result F) (result : String)
    (h : (strings.Split result "\n").length < 7) :
    parseNetperfResult pf result = Outcome.panic GoPanic.indexOutOfRange := by
  have hnone : (strings.Split result "\n")[6]? = none := List.getElem?_eq_none (by omega)
  simp [parseNetperfResult, index, hnone]

/-- A seventh line with fewer than five fields makes `entries[4]` panic. -/
theorem parseNetperfResult_few_fields (pf : String → Result F) (result line : String)
    (hline : (strings.Split result "\n")[6]? = some line)
    (h : (strings.Fields line).length < 5) :
    parseNetperfResult pf result = Outcome.panic GoPanic.indexOutOfRange := by
  have hnone : (strings.Fields line)[4]? = none := List.getElem?_eq_none (by omega)
  simp [parseNetperfResult, index, hline, hnone]

/-- C6 (defect in the code): the parse does not turn a short output into an error value.
On a three-line output the index expression `lines[6]` is out of range and the function
panics, whatever the float parser is; the same happens for every output with fewer than
seven lines or with fewer than five fields on the seventh line
(`parseNetperfResult_short`, `parseNetperfResult_few_fields`). -/
theorem parseNetperfResult_three_lines (pf : String → Result F) :
    parseNetperfResult pf "Recv   Send    Send\nSocket Socket  Message\nSize   Size    Size" =
      Outcome.panic GoPanic.indexOutOfRange :=
  parseNetperfResult_short pf _ (by decide)

/-- C7: when the output has at least seven lines and the seventh has at least five fields,
the result is the float parse of the fifth field of the seventh line, and two such outputs
with the same text in that place give the same result: nothing else in the output is
looked at. -/
theorem parseNetperfResult_field (pf : String → Result F) (result : String)
    (hlines : 7 ≤ (strings.Split result "\n").length)
    (hfields : 5 ≤ (strings.Fields ((strings.Split result "\n").getD 6 "")).length) :
    parseNetperfResult pf result = Outcome.ret (pf (throughputField result)) ∧
    ∀ other : String,
      7 ≤ (strings.Split other "\n").length →
      5 ≤ (strings.Fields ((strings.Split other "\n").getD 6 "")).length →
      throughputField other = throughputField result →
      parseNetperfResult pf other = parseNetperfResult pf result := by
  have key : ∀ r : String, 7 ≤ (strings.Split r "\n").length →
      5 ≤ (strings.Fields ((strings.Split r "\n").getD 6 "")).length →
      parseNetperfResult pf r = Outcome.ret (pf (throughputField r)) := by
    intro r h7 h5
    obtain ⟨line, hline⟩ : ∃ line, (strings.Split r "\n")[6]? = some line :=
      ⟨_, List.getElem?_eq_getElem (by omega)⟩
    have hd : (strings.Split r "\n").getD 6 "" = line := by
      simp [List.getD_eq_getElem?_getD, hline]
    rw [hd] at h5
    obtain ⟨entry, hentry⟩ : ∃ entry, (strings.Fields line)[4]? = some entry :=
      ⟨_, List.getElem?_eq_getElem (by omega)⟩
    simp [parseNetperfResult, index, hline, hentry, throughputField]
  refine ⟨key result hlines hfields, ?_⟩
  intro other h7 h5 hsame
  rw [key other h7 h5, key result hlines hfields, hsame]

/-- Witness for C7: the sample report, read with the decimal stand-in. -/
theorem parseNetperfResult_field_witness :
    parseNetperfResult strconv.ParseDecimal sampleReport =
        Outcome.ret (strconv.ParseDecimal (throughputField sampleReport)) ∧
    ∀ other : String,
      7 ≤ (strings.Split other "\n").length →
      5 ≤ (strings.Fields ((strings.Split other "\n").getD 6 "")).length →
      throughputField other = throughputField sampleReport →
      parseNetperfResult strconv.ParseDecimal other =
        parseNetperfResult strconv.ParseDecimal sampleReport :=
  parseNetperfResult_field strconv.ParseDecimal sampleReport (by decide) (by decide)

/-- C8, as stated, fails: on a seven-line output whose seventh line is the quoted line the
fifth field is `16384`, so the result is 16384 and not the parse of `941.23`. -/
theorem parseNetperfResult_quoted_line_not_941 :
    parseNetperfResult strconv.ParseDecimal quotedReport =
        Outcome.ret (Result.ok { negative := false, mantissa := 16384, scale := 0 }) ∧
    parseNetperfResult strconv.ParseDecimal quotedReport ≠
        Outcome.ret (strconv.ParseDecimal "941.23") ∧
    strconv.Decimal.value { negative := false, mantissa := 16384, scale := 0 } ≠ 941.23 := by
  refine ⟨by decide, by decide, ?_⟩
  norm_num [strconv.Decimal.value]

/-- C8, amended: for every seven-line output whose seventh line is the quoted line, the
result is the float parse of `16384`, the fifth field of that line; the parse of `941.23`
is the result when the seventh line is the bare data row, in which `941.23` is the fifth
field. -/
theorem parseNetperfResult_seventh_line (pf : String → Result F)
    (l0 l1 l2 l3 l4 l5 : String)
    (h : ∀ l ∈ [l0, l1, l2, l3, l4, l5], '\n' ∉ l.data) :
    parseNetperfResult pf
        (l0 ++ "\n" ++ l1 ++ "\n" ++ l2 ++ "\n" ++ l3 ++ "\n" ++ l4 ++ "\n" ++ l5 ++ "\n" ++
          quotedLine) = Outcome.ret (pf "16384") ∧
    parseNetperfResult pf
        (l0 ++ "\n" ++ l1 ++ "\n" ++ l2 ++ "\n" ++ l3 ++ "\n" ++ l4 ++ "\n" ++ l5 ++ "\n" ++
          dataRow) = Outcome.ret (pf "941.23") := by
  have hq : strings.Split quotedLine "\n" = [quotedLine] := by decide
  have hd : strings.Split dataRow "\n" = [dataRow] := by decide
  have fq : (strings.Fields quotedLine)[4]? = some "16384" := by decide
  have fd : (strings.Fields dataRow)[4]? = some "941.23" := by decide
  constructor
  · simp [parseNetperfResult, index, Split_seven _ _ _ _ _ _ _ h, hq, fq]
  · simp [parseNetperfResult, index, Split_seven _ _ _ _ _ _ _ h, hd, fd]

/-- Witness for C8, amended: the header of the sample report in front of either line. -/
theorem parseNetperfResult_seventh_line_witness :
    parseNetperfResult strconv.ParseDecimal
        ("MIGRATED TCP STREAM TEST" ++ "\n" ++ "Recv   Send    Send" ++ "\n" ++
          "Socket Socket  Message  Elapsed" ++ "\n" ++
          "Size   Size    Size     Time     Throughput" ++ "\n" ++
          "bytes  bytes   bytes    secs.    10^6bits/sec" ++ "\n" ++ "" ++ "\n" ++
          quotedLine) = Outcome.ret (strconv.ParseDecimal "16384") ∧
    parseNetperfResult strconv.ParseDecimal
        ("MIGRATED TCP STREAM TEST" ++ "\n" ++ "Recv   Send    Send" ++ "\n" ++
          "Socket Socket  Message  Elapsed" ++ "\n" ++
          "Size   Size    Size     Time     Throughput" ++ "\n" ++
          "bytes  bytes   bytes    secs.    10^6bits/sec" ++ "\n" ++ "" ++ "\n" ++
          dataRow) = Outcome.ret (strconv.ParseDecimal "941.23") :=
  parseNetperfResult_seventh_line strconv.ParseDecimal "MIGRATED TCP STREAM TEST"
    "Recv   Send    Send" "Socket Socket  Message  Elapsed"
    "Size   Size    Size     Time     Throughput"
    "bytes  bytes   bytes    secs.    10^6bits/sec" "" (by decide)

/-! ## Terminal absorption and phase progression -/

/-- C3, as stated, fails in two ways.  A request in phase Error whose client pod is reported
Succeeded is taken through the completion path and written with phase Done: only Done
stops that path.  A request in phase Done with no recorded client pod whose server pod is
reported Running gets a client pod created and is written with phase Testing and a new
recorded client name: the server handler looks at the recorded client name, not at the
phase. -/
theorem terminal_phases_not_absorbing :
    (requestOf cannedCluster (healthyStore erroredRequest)
          ⟨Object.pod succeededClient, false⟩ = some erroredRequest ∧
      erroredRequest.Status.Status = Phase.Error ∧
      (writes ((Handle cannedCluster ⟨Object.pod succeededClient, false⟩).run
          (healthyStore erroredRequest, [])).2.2).map (fun n => n.Status.Status) =
        [Phase.Done]) ∧
    (requestOf cannedCluster (healthyStore doneWithoutClient)
          ⟨Object.pod runningServer, false⟩ = some doneWithoutClient ∧
      doneWithoutClient.Status.Status = Phase.Done ∧
      (creates ((Handle cannedCluster ⟨Object.pod runningServer, false⟩).run
          (healthyStore doneWithoutClient, [])).2.2).map (fun p => p.Name) =
        [sampleClientName] ∧
      (writes ((Handle cannedCluster ⟨Object.pod runningServer, false⟩).run
          (healthyStore doneWithoutClient, [])).2.2).map
            (fun n => (n.Status.Status, n.Status.ClientPod)) =
        [(Phase.Test, sampleClientName)]) := by
  decide

/-- C3, amended: for a request in phase Done or Error whose recorded client name is not
empty, handling a notification about it (a request notification, deleted or not, or a pod
notification in any pod phase) creates no pod, and every status it writes has the recorded
server and client names of the request; when the phase is Done it writes no status at
all. -/
theorem terminal_absorption (cl : Cluster σ F) (event : Event F) (s : σ) (cr : Netperf F)
    (hreq : requestOf cl s event = some cr)
    (hphase : cr.Status.Status = Phase.Done ∨ cr.Status.Status = Phase.Error)
    (hclient : cr.Status.ClientPod ≠ "") :
    creates ((Handle cl event).run (s, [])).2.2 = [] ∧
    (∀ n ∈ writes ((Handle cl event).run (s, [])).2.2,
      n.Status.ServerPod = cr.Status.ServerPod ∧ n.Status.ClientPod = cr.Status.ClientPod) ∧
    (cr.Status.Status = Phase.Done → writes ((Handle cl event).run (s, [])).2.2 = []) := by
  have hne : cr.Status.Status ≠ Phase.Initial ∧ cr.Status.Status ≠ Phase.Server := by
    rcases hphase with h | h <;> simp [h]
  refine ⟨Handle_creates cl event s cr hreq hne hclient, ?_, ?_⟩
  · intro n hn
    rcases Handle_writes cl event s cr hreq n hn with h | h | h
    · exact absurd h.2.1 (by rcases hphase with h' | h' <;> simp [h'])
    · exact absurd h.2.1 hclient
    · exact h.2.2
  · intro hdone
    apply List.eq_nil_iff_forall_not_mem.mpr
    intro n hn
    rcases Handle_writes cl event s cr hreq n hn with h | h | h
    · simp [hdone] at h
    · exact absurd h.2.1 hclient
    · exact h.2.1 hdone

/-- Witness for C3, amended: the sample request in phase Error with both names recorded and
the notification of its succeeded client pod. -/
theorem terminal_absorption_witness :
    creates ((Handle cannedCluster ⟨Object.pod succeededClient, false⟩).run
        (healthyStore erroredRequest, [])).2.2 = [] ∧
    (∀ n ∈ writes ((Handle cannedCluster ⟨Object.pod succeededClient, false⟩).run
        (healthyStore erroredRequest, [])).2.2,
      n.Status.ServerPod = erroredRequest.Status.ServerPod ∧
      n.Status.ClientPod = erroredRequest.Status.ClientPod) ∧
    (erroredRequest.Status.Status = Phase.Done →
      writes ((Handle cannedCluster ⟨Object.pod succeededClient, false⟩).run
        (healthyStore erroredRequest, [])).2.2 = []) :=
  terminal_absorption cannedCluster ⟨Object.pod succeededClient, false⟩
    (healthyStore erroredRequest) erroredRequest (by decide) (by decide) (by decide)

/-- C4, as stated, fails in two ways.  For a request in phase Error and a succeeded client
pod the handler writes phase Done, so Error is left.  For a request in phase Done with no
recorded client pod and a running server pod the handler writes phase Testing, which is
earlier than Done. -/
theorem phase_moves_backward :
    (requestOf cannedCluster (healthyStore erroredRequest)
          ⟨Object.pod succeededClient, false⟩ = some erroredRequest ∧
      ¬ ∀ n ∈ writes ((Handle cannedCluster ⟨Object.pod succeededClient, false⟩).run
          (healthyStore erroredRequest, [])).2.2,
        Phase.advances erroredRequest.Status.Status n.Status.Status) ∧
    (requestOf cannedCluster (healthyStore doneWithoutClient)
          ⟨Object.pod runningServer, false⟩ = some doneWithoutClient ∧
      ¬ ∀ n ∈ writes ((Handle cannedCluster ⟨Object.pod runningServer, false⟩).run
          (healthyStore doneWithoutClient, [])).2.2,
        Phase.advances doneWithoutClient.Status.Status n.Status.Status) := by
  decide

/-- C4, amended: for a request that is not in phase Error and is not in phase Done with an
empty recorded client name, every phase written while a notification about it is handled
is Error, or equal to or later than the phase of the request in the order
Initial < ServerScheduled < Testing < Done. -/
theorem phase_progression (cl : Cluster σ F) (event : Event F) (s : σ) (cr : Netperf F)
    (hreq : requestOf cl s event = some cr)
    (herror : cr.Status.Status ≠ Phase.Error)
    (hdone : cr.Status.Status = Phase.Done → cr.Status.ClientPod ≠ "")
    (n : Netperf F) (hn : n ∈ writes ((Handle cl event).run (s, [])).2.2) :
    Phase.advances cr.Status.Status n.Status.Status := by
  refine Or.inr ⟨herror, ?_⟩
  rcases Handle_writes cl event s cr hreq n hn with h | h | h
  · rw [h.1]
    rcases h.2.1 with h' | h' <;> simp [h', Phase.rank]
  · rw [h.1]
    have hnd : cr.Status.Status ≠ Phase.Done := fun e => hdone e h.2.1
    revert herror hnd
    cases cr.Status.Status <;> simp [Phase.rank]
  · rw [h.1]
    revert herror
    cases cr.Status.Status <;> simp [Phase.rank]

/-- Witness for C4, amended: the sample request in phase Testing and the notification of
its succeeded client pod, which makes the handler write the completed request. -/
theorem phase_progression_witness :
    completedRequest ∈ writes ((Handle cannedCluster ⟨Object.pod succeededClient, false⟩).run
        (healthyStore testingRequest, [])).2.2 ∧
    Phase.advances testingRequest.Status.Status completedRequest.Status.Status :=
  ⟨by decide,
    phase_progression cannedCluster ⟨Object.pod succeededClient, false⟩
      (healthyStore testingRequest) testingRequest (by decide) (by decide) (by decide)
      completedRequest (by decide)⟩

/-! ## Idempotent creation -/

/-- The pod built for a request does not depend on the status of the request. -/
theorem newNetperfPod_status (gv : GroupVersion) (cr : Netperf F) (st : NetperfStatus F)
    (npType : netperfType) (restartPolicy : String) (command : List String) :
    newNetperfPod gv { cr with Status := st } npType restartPolicy command =
      newNetperfPod gv cr npType restartPolicy command := rfl

/-- C5: when the server pod of a request can be built, a first run of `startServerPod` in
which the creation and the status update succeed writes the request with phase
ServerScheduled and the derived server name recorded; a second run on that request in
which the creation reports already-exists returns success and writes nothing, so phase
and recorded server name stay as the first run left them.  This holds for a request in
any phase, in particular in phase Initial. -/
theorem startServerPod_idempotent (cl : Cluster σ F) (cr : Netperf F) (pod : Pod)
    (s s1 s2 s3 s4 : σ) (e : GoError)
    (hpod : newNetperfPod cl.SchemeGroupVersion cr netperfTypeServer RestartPolicyAlways [] =
      Outcome.ret pod)
    (hcreate : cl.Create pod s = (none, s1))
    (hupdate : cl.Update
      { cr with Status := { cr.Status with Status := Phase.Server, ServerPod := pod.Name } } s1 =
        (none, s2))
    (hexists : cl.Create pod s3 = (some e, s4))
    (he : errors.IsAlreadyExists (some e) = true) :
    ∃ registered : Netperf F,
      (startServerPod cl cr).run (s, []) =
        (Outcome.ret none, (s2, [Call.Create pod none, Call.Update registered none])) ∧
      registered.Status.Status = Phase.Server ∧
      getNetperfPodName cr netperfTypeServer = Outcome.ret registered.Status.ServerPod ∧
      (startServerPod cl registered).run (s3, []) =
        (Outcome.ret none, (s4, [Call.Create pod (some e)])) ∧
      writes ((startServerPod cl registered).run (s3, [])).2.2 = [] := by
  have hname : getNetperfPodName cr netperfTypeServer = Outcome.ret pod.Name := by
    unfold newNetperfPod at hpod
    split at hpod
    · simp at hpod
    · rename_i name hn
      simp at hpod
      rw [hn, ← hpod]
  have hfirst : (startServerPod cl cr).run (s, []) =
      (Outcome.ret none, (s2, [Call.Create pod none, Call.Update
        { cr with Status := { cr.Status with Status := Phase.Server, ServerPod := pod.Name } }
        none])) := by
    simp [startServerPod, hpod, hcreate, registerNetperfServer, hupdate]
  have hsecond : (startServerPod cl
      { cr with Status := { cr.Status with Status := Phase.Server, ServerPod := pod.Name } }).run
        (s3, []) = (Outcome.ret none, (s4, [Call.Create pod (some e)])) := by
    simp [startServerPod, newNetperfPod_status, hpod, hexists, he]
  exact ⟨_, hfirst, rfl, hname, hsecond, by rw [hsecond]; rfl⟩

/-- Witness for C5: the sample request in phase Initial, a store in which every call
succeeds for the first run and a store that reports already-exists for the second. -/
theorem startServerPod_idempotent_witness :
    ∃ registered : Netperf strconv.Decimal,
      (startServerPod cannedCluster initialRequest).run ({}, []) =
        (Outcome.ret none, ({}, [Call.Create builtServer none, Call.Update registered none])) ∧
      registered.Status.Status = Phase.Server ∧
      getNetperfPodName initialRequest netperfTypeServer =
        Outcome.ret registered.Status.ServerPod ∧
      (startServerPod cannedCluster registered).run ({ createErr := some alreadyExists }, []) =
        (Outcome.ret none,
          ({ createErr := some alreadyExists }, [Call.Create builtServer (some alreadyExists)])) ∧
      writes ((startServerPod cannedCluster registered).run
        ({ createErr := some alreadyExists }, [])).2.2 = [] :=
  startServerPod_idempotent cannedCluster initialRequest builtServer {} {} {}
    { createErr := some alreadyExists } { createErr := some alreadyExists } alreadyExists
    (by decide) rfl rfl rfl (by decide)

/-! ## Failures and unexpected notifications -/

/-- C9, as stated, fails: when the fetch of the owning request of a pod fails with a server
timeout, `handlePodUpdateEvent` logs the error and `Handle` returns success; the fetch is
the only call made. -/
theorem Handle_drops_fetch_failure :
    ((Handle cannedCluster ⟨Object.pod succeededClient, false⟩).run
        ({ netperf := Result.error serverTimeout }, [])).1 = Outcome.ret none ∧
    ((Handle cannedCluster ⟨Object.pod succeededClient, false⟩).run
        ({ netperf := Result.error serverTimeout }, [])).2.2 =
      [Call.GetNetperf "bench" "default" (Result.error serverTimeout)] ∧
    errors.IsAlreadyExists (some serverTimeout) = false := by
  decide

/-- C9, amended: for every call made while a notification is handled, if the call is a pod
creation that fails for another reason than already-exists, a failed fetch of a pod, a
failed deletion, or a failed status update other than the one that records the client
pod, then `Handle` returns a failure; if the call is a failed fetch of the owning request,
`Handle` returns success. -/
theorem Handle_reports_failures (cl : Cluster σ F) (event : Event F) (s : σ) (c : Call F)
    (hc : c ∈ ((Handle cl event).run (s, [])).2.2) :
    (reportedFailure c = true →
      ∃ e, ((Handle cl event).run (s, [])).1 = Outcome.ret (some e)) ∧
    (∀ name ns e, c = Call.GetNetperf name ns (Result.error e) →
      ((Handle cl event).run (s, [])).1 = Outcome.ret none) := by
  refine ⟨Handle_reports cl event s c hc, ?_⟩
  intro name ns e hce
  subst hce
  exact Handle_fetch_failed cl event s name ns e hc

/-- Witness for C9, amended: the deletion of the succeeded client pod fails with a server
timeout. -/
theorem Handle_reports_failures_witness :
    (reportedFailure (Call.Delete succeededClient (some serverTimeout) :
        Call strconv.Decimal) = true →
      ∃ e, ((Handle cannedCluster ⟨Object.pod succeededClient, false⟩).run
        ({ healthyStore testingRequest with deleteErr := some serverTimeout }, [])).1 =
          Outcome.ret (some e)) ∧
    (∀ name ns e, (Call.Delete succeededClient (some serverTimeout) : Call strconv.Decimal) =
        Call.GetNetperf name ns (Result.error e) →
      ((Handle cannedCluster ⟨Object.pod succeededClient, false⟩).run
        ({ healthyStore testingRequest with deleteErr := some serverTimeout }, [])).1 =
          Outcome.ret none) :=
  Handle_reports_failures cannedCluster ⟨Object.pod succeededClient, false⟩
    { healthyStore testingRequest with deleteErr := some serverTimeout }
    (Call.Delete succeededClient (some serverTimeout)) (by decide)

/-- C10 (defect in the code): a notification that carries a pod without owner reference is
not ignored.  `Handle` evaluates `OwnerReferences[0]` before any check, so for such a pod
it panics with an index out of range, in any store and before any call is made.  The other
two shapes are ignored as claimed (`Handle_unknown_kind`, `Handle_unmatched_pod`). -/
theorem Handle_pod_without_owner (cl : Cluster σ F) (deleted : Bool)
    (w : σ × List (Call F)) :
    (Handle cl ⟨Object.pod { Name := "stray", Namespace := "default",
                              Status := { Phase := PodRunning, PodIP := "10.0.0.9" } },
        deleted⟩).run w = (Outcome.panic GoPanic.indexOutOfRange, w) :=
  Handle_pod_orphan cl _ deleted w rfl

/-- A notification of an unknown kind is ignored: success, no call. -/
theorem Handle_unknown_kind (cl : Cluster σ F) (kind : String) (deleted : Bool)
    (w : σ × List (Call F)) :
    (Handle cl ⟨Object.other kind, deleted⟩).run w = (Outcome.ret none, w) := rfl

/-- A pod of a Netperf whose name is neither recorded name is ignored: success, and the
fetch of the owning request is the only call. -/
theorem Handle_unmatched_pod (cl : Cluster σ F) (p : Pod) (deleted : Bool)
    (s : σ) (owner : OwnerReference) (rest : List OwnerReference)
    (cr : Netperf F) (hown : p.OwnerReferences = owner :: rest)
    (hkind : owner.Kind = "Netperf")
    (hget : (cl.GetNetperf owner.Name p.Namespace s).1 = Result.ok cr)
    (hserver : p.Name ≠ cr.Status.ServerPod) (hclient : p.Name ≠ cr.Status.ClientPod) :
    (Handle cl ⟨Object.pod p, deleted⟩).run (s, []) =
      (Outcome.ret none,
        ((cl.GetNetperf owner.Name p.Namespace s).2,
          [Call.GetNetperf owner.Name p.Namespace (Result.ok cr)])) := by
  rw [Handle_pod cl p deleted s [] owner rest cr hown hkind hget]
  simp [hserver, hclient]

/-! ## Pod names and placement -/

theorem server_ne_client (f : String) : "netperf-server-" ++ f ≠ "netperf-client-" ++ f := by
  intro h
  have h' := congrArg String.data h
  simp [String.data_append] at h'

theorem prefixed_ne_empty_client (f : String) : "netperf-client-" ++ f ≠ "" := by
  intro h
  have h' := congrArg String.data h
  simp [String.data_append] at h'

theorem getNetperfPodName_of_fragments (cr : Netperf F) (npType : netperfType)
    (h : 5 ≤ (strings.Split cr.UID "-").length) :
    getNetperfPodName cr npType =
      if npType = netperfTypeClient then Outcome.ret ("netperf-client-" ++ uidFragment cr.UID)
      else if npType = netperfTypeServer then
        Outcome.ret ("netperf-server-" ++ uidFragment cr.UID)
      else Outcome.ret "" := by
  obtain ⟨frag, hfrag⟩ : ∃ frag, (strings.Split cr.UID "-")[4]? = some frag :=
    ⟨_, List.getElem?_eq_getElem (by omega)⟩
  simp [getNetperfPodName, index, hfrag, uidFragment, List.getD_eq_getElem?_getD]

theorem getNetperfPodName_short (cr : Netperf F) (npType : netperfType)
    (h : (strings.Split cr.UID "-").length < 5) :
    getNetperfPodName cr npType = Outcome.panic GoPanic.indexOutOfRange := by
  have hnone : (strings.Split cr.UID "-")[4]? = none := List.getElem?_eq_none (by omega)
  simp [getNetperfPodName, index, hnone]

theorem newNetperfPod_name (gv : GroupVersion) (cr : Netperf F) (npType : netperfType)
    (restartPolicy : String) (command : List String) :
    (newNetperfPod gv cr npType restartPolicy command).map (fun p => p.Name) =
      getNetperfPodName cr npType := by
  unfold newNetperfPod
  cases getNetperfPodName cr npType <;> rfl

theorem newNetperfPod_ret_name (gv : GroupVersion) (cr : Netperf F) (npType : netperfType)
    (restartPolicy : String) (command : List String) (p : Pod)
    (h : newNetperfPod gv cr npType restartPolicy command = Outcome.ret p) :
    getNetperfPodName cr npType = Outcome.ret p.Name := by
  rw [← newNetperfPod_name gv cr npType restartPolicy command, h]
  rfl

theorem getNetperfPodName_uid (cr1 cr2 : Netperf F) (npType : netperfType)
    (h : cr1.UID = cr2.UID) :
    getNetperfPodName cr1 npType = getNetperfPodName cr2 npType := by
  simp [getNetperfPodName, h]

theorem client_name_ne_empty (cr : Netperf F) (name : String)
    (h : getNetperfPodName cr netperfTypeClient = Outcome.ret name) : name ≠ "" := by
  unfold getNetperfPodName at h
  cases hi : index (strings.Split cr.UID "-") 4 with
  | panic p => simp [hi] at h
  | ret suffix =>
    simp [hi] at h
    subst h
    intro h
    have h' := congrArg String.data h
    simp [String.data_append] at h'

/-- C11, as stated, fails: for the empty UID and for a UID of four fragments the index
expression `strings.Split(guidString, "-")[4]` is out of range and `newNetperfPod`
panics. -/
theorem newNetperfPod_short_uid_panics :
    newNetperfPod cannedCluster.SchemeGroupVersion (requestWithUID "" {}) netperfTypeServer
        RestartPolicyAlways [] = Outcome.panic GoPanic.indexOutOfRange ∧
    newNetperfPod cannedCluster.SchemeGroupVersion (requestWithUID "0f3a9c52-7d1e-4b6a-9c55" {})
        netperfTypeClient RestartPolicyOnFailure ["netperf", "-H", "10.0.0.7"] =
      Outcome.panic GoPanic.indexOutOfRange := by
  decide

/-- C11, amended: `newNetperfPod` returns a pod, for every role, restart policy and command,
exactly for the requests whose UID splits on `-` into at least five fragments; for a UID
with fewer fragments it panics with an index out of range. -/
theorem newNetperfPod_returns_iff (gv : GroupVersion) (cr : Netperf F) (npType : netperfType)
    (restartPolicy : String) (command : List String) :
    ((∃ pod : Pod, newNetperfPod gv cr npType restartPolicy command = Outcome.ret pod) ↔
      5 ≤ (strings.Split cr.UID "-").length) ∧
    ((strings.Split cr.UID "-").length < 5 →
      newNetperfPod gv cr npType restartPolicy command =
        Outcome.panic GoPanic.indexOutOfRange) := by
  have hshort : (strings.Split cr.UID "-").length < 5 →
      newNetperfPod gv cr npType restartPolicy command =
        Outcome.panic GoPanic.indexOutOfRange := by
    intro h
    simp [newNetperfPod, getNetperfPodName_short cr npType h]
  refine ⟨⟨?_, ?_⟩, hshort⟩
  · rintro ⟨pod, hpod⟩
    by_contra hlt
    rw [hshort (by omega)] at hpod
    cases hpod
  · intro h
    unfold newNetperfPod
    rw [getNetperfPodName_of_fragments cr npType h]
    split_ifs <;> exact ⟨_, rfl⟩

/-- C12, as stated, fails: the names built for the sample request are
`netperf-server-3e8d2a71b604` and `netperf-client-3e8d2a71b604`; neither is `bench-server-`
or `bench-client-` followed by a fragment of the UID. -/
theorem pod_name_prefix_is_netperf :
    (newNetperfPod cannedCluster.SchemeGroupVersion initialRequest netperfTypeServer
        RestartPolicyAlways []).map (fun p => p.Name) =
      Outcome.ret "netperf-server-3e8d2a71b604" ∧
    (∀ frag ∈ strings.Split initialRequest.UID "-",
      (newNetperfPod cannedCluster.SchemeGroupVersion initialRequest netperfTypeServer
          RestartPolicyAlways []).map (fun p => p.Name) ≠
        Outcome.ret ("bench-server-" ++ frag)) ∧
    (newNetperfPod cannedCluster.SchemeGroupVersion initialRequest netperfTypeClient
        RestartPolicyOnFailure ["netperf", "-H", "10.0.0.7"]).map (fun p => p.Name) =
      Outcome.ret "netperf-client-3e8d2a71b604" ∧
    (∀ frag ∈ strings.Split initialRequest.UID "-",
      (newNetperfPod cannedCluster.SchemeGroupVersion initialRequest netperfTypeClient
          RestartPolicyOnFailure ["netperf", "-H", "10.0.0.7"]).map (fun p => p.Name) ≠
        Outcome.ret ("bench-client-" ++ frag)) := by
  decide

/-- C12, amended: for a request whose UID splits on `-` into at least five fragments, the
name of the pod built for the server role is `netperf-server-` followed by the fifth
fragment (index 4) of the UID, and the name built for the client role is `netperf-client-`
followed by that same fragment. -/
theorem pod_name_of_fragments (gv : GroupVersion) (cr : Netperf F)
    (restartPolicy : String) (command : List String)
    (h : 5 ≤ (strings.Split cr.UID "-").length) :
    (newNetperfPod gv cr netperfTypeServer restartPolicy command).map (fun p => p.Name) =
      Outcome.ret ("netperf-server-" ++ uidFragment cr.UID) ∧
    (newNetperfPod gv cr netperfTypeClient restartPolicy command).map (fun p => p.Name) =
      Outcome.ret ("netperf-client-" ++ uidFragment cr.UID) ∧
    (strings.Split cr.UID "-")[4]? = some (uidFragment cr.UID) := by
  have hne : netperfTypeServer ≠ netperfTypeClient := by decide
  refine ⟨?_, ?_, ?_⟩
  · rw [newNetperfPod_name, getNetperfPodName_of_fragments cr _ h]
    simp [hne]
  · rw [newNetperfPod_name, getNetperfPodName_of_fragments cr _ h]
    simp
  · obtain ⟨frag, hfrag⟩ : ∃ frag, (strings.Split cr.UID "-")[4]? = some frag :=
      ⟨_, List.getElem?_eq_getElem (by omega)⟩
    simp [uidFragment, List.getD_eq_getElem?_getD, hfrag]

/-- Witness for C12, amended: the sample request. -/
theorem pod_name_of_fragments_witness :
    (newNetperfPod cannedCluster.SchemeGroupVersion initialRequest netperfTypeServer
        RestartPolicyAlways []).map (fun p => p.Name) =
      Outcome.ret ("netperf-server-" ++ uidFragment initialRequest.UID) ∧
    (newNetperfPod cannedCluster.SchemeGroupVersion initialRequest netperfTypeClient
        RestartPolicyAlways []).map (fun p => p.Name) =
      Outcome.ret ("netperf-client-" ++ uidFragment initialRequest.UID) ∧
    (strings.Split initialRequest.UID "-")[4]? = some (uidFragment initialRequest.UID) :=
  pod_name_of_fragments cannedCluster.SchemeGroupVersion initialRequest RestartPolicyAlways []
    (by decide)

/-- C13: two requests with the same UID get the same pod name for a role, whatever their
other fields, the group and version, the restart policy and the command are (both calls
panic alike when the UID is too short); the name is a function of the UID and the role
alone. -/
theorem pod_name_deterministic (cr1 cr2 : Netperf F) (gv1 gv2 : GroupVersion)
    (npType : netperfType) (restartPolicy1 restartPolicy2 : String)
    (command1 command2 : List String) (hUID : cr1.UID = cr2.UID) :
    (newNetperfPod gv1 cr1 npType restartPolicy1 command1).map (fun p => p.Name) =
      (newNetperfPod gv2 cr2 npType restartPolicy2 command2).map (fun p => p.Name) ∧
    ∃ name : String → netperfType → Outcome String,
      ∀ (gv : GroupVersion) (cr : Netperf F) (role : netperfType) (restartPolicy : String)
        (command : List String),
        (newNetperfPod gv cr role restartPolicy command).map (fun p => p.Name) =
          name cr.UID role := by
  constructor
  · rw [newNetperfPod_name, newNetperfPod_name]
    simp [getNetperfPodName, hUID]
  · refine ⟨fun uid role =>
      match index (strings.Split uid "-") 4 with
      | Outcome.panic p => Outcome.panic p
      | Outcome.ret suffix =>
        if role = netperfTypeClient then Outcome.ret ("netperf-client-" ++ suffix)
        else if role = netperfTypeServer then Outcome.ret ("netperf-server-" ++ suffix)
        else Outcome.ret "", ?_⟩
    intro gv cr role restartPolicy command
    rw [newNetperfPod_name]
    rfl

/-- Witness for C13: the sample request as created and while testing, with different
restart policies and commands. -/
theorem pod_name_deterministic_witness :
    (newNetperfPod cannedCluster.SchemeGroupVersion initialRequest netperfTypeServer
        RestartPolicyAlways []).map (fun p => p.Name) =
      (newNetperfPod { Group := "", Version := "v1" } testingRequest netperfTypeServer
        RestartPolicyOnFailure ["netperf"]).map (fun p => p.Name) ∧
    ∃ name : String → netperfType → Outcome String,
      ∀ (gv : GroupVersion) (cr : Netperf strconv.Decimal) (role : netperfType)
        (restartPolicy : String) (command : List String),
        (newNetperfPod gv cr role restartPolicy command).map (fun p => p.Name) =
          name cr.UID role :=
  pod_name_deterministic initialRequest testingRequest cannedCluster.SchemeGroupVersion
    { Group := "", Version := "v1" } netperfTypeServer RestartPolicyAlways RestartPolicyOnFailure
    [] ["netperf"] rfl

/-- C14: for the server role and for the client role, `getNetperfPodAffinity` returns no
affinity exactly when the node hint of that role is empty, and otherwise the required
node affinity with one selector term holding one requirement, key
`kubernetes.io/hostname`, operator `In`, values the one-element list of that hint; the
hint of the other role does not occur in the result. -/
theorem getNetperfPodAffinity_placement (cr : Netperf F) :
    (getNetperfPodAffinity cr netperfTypeServer = none ↔ cr.Spec.ServerNode = "") ∧
    (getNetperfPodAffinity cr netperfTypeClient = none ↔ cr.Spec.ClientNode = "") ∧
    getNetperfPodAffinity cr netperfTypeServer =
      (if cr.Spec.ServerNode = "" then none else some (hostnameAffinity cr.Spec.ServerNode)) ∧
    getNetperfPodAffinity cr netperfTypeClient =
      (if cr.Spec.ClientNode = "" then none else some (hostnameAffinity cr.Spec.ClientNode)) := by
  have hne : netperfTypeServer ≠ netperfTypeClient := by decide
  have hs : getNetperfPodAffinity cr netperfTypeServer =
      (if cr.Spec.ServerNode = "" then none else some (hostnameAffinity cr.Spec.ServerNode)) := by
    by_cases h : cr.Spec.ServerNode = "" <;>
      simp [getNetperfPodAffinity, hostnameAffinity, hne, h]
  have hc : getNetperfPodAffinity cr netperfTypeClient =
      (if cr.Spec.ClientNode = "" then none else some (hostnameAffinity cr.Spec.ClientNode)) := by
    by_cases h : cr.Spec.ClientNode = "" <;>
      simp [getNetperfPodAffinity, hostnameAffinity, hne.symm, h]
  refine ⟨?_, ?_, hs, hc⟩
  · rw [hs]; by_cases h : cr.Spec.ServerNode = "" <;> simp [h]
  · rw [hc]; by_cases h : cr.Spec.ClientNode = "" <;> simp [h]

/-- C20: for a request whose UID splits on `-` into at least five fragments, the names
derived for the server role and for the client role differ, so no pod name equals both
recorded names of a request that records these two names: the two tests of
`handlePodUpdateEvent` cannot both succeed. -/
theorem server_and_client_names_differ (cr : Netperf F)
    (h : 5 ≤ (strings.Split cr.UID "-").length) :
    ∃ serverName clientName : String,
      getNetperfPodName cr netperfTypeServer = Outcome.ret serverName ∧
      getNetperfPodName cr netperfTypeClient = Outcome.ret clientName ∧
      serverName ≠ clientName ∧
      ∀ (recorded : Netperf F) (p : Pod),
        recorded.Status.ServerPod = serverName →
        recorded.Status.ClientPod = clientName →
        ¬ ((p.Name == recorded.Status.ServerPod) = true ∧
           (p.Name == recorded.Status.ClientPod) = true) := by
  have hne : netperfTypeServer ≠ netperfTypeClient := by decide
  refine ⟨"netperf-server-" ++ uidFragment cr.UID, "netperf-client-" ++ uidFragment cr.UID,
    ?_, ?_, server_ne_client _, ?_⟩
  · rw [getNetperfPodName_of_fragments cr _ h]
    simp [hne]
  · rw [getNetperfPodName_of_fragments cr _ h]
    simp
  · intro recorded p hs hc hboth
    simp only [beq_iff_eq] at hboth
    exact server_ne_client (uidFragment cr.UID) (by rw [← hs, ← hc, ← hboth.1, ← hboth.2])

/-- Witness for C20: the sample request. -/
theorem server_and_client_names_differ_witness :
    ∃ serverName clientName : String,
      getNetperfPodName initialRequest netperfTypeServer = Outcome.ret serverName ∧
      getNetperfPodName initialRequest netperfTypeClient = Outcome.ret clientName ∧
      serverName ≠ clientName ∧
      ∀ (recorded : Netperf strconv.Decimal) (p : Pod),
        recorded.Status.ServerPod = serverName →
        recorded.Status.ClientPod = clientName →
        ¬ ((p.Name == recorded.Status.ServerPod) = true ∧
           (p.Name == recorded.Status.ClientPod) = true) :=
  server_and_client_names_differ initialRequest (by decide)

/-! ## The recorded names -/

theorem startServerPod_writes_names (cl : Cluster σ F) (cr : Netperf F)
    (w : σ × List (Call F)) :
    ∀ n ∈ writes ((startServerPod cl cr).run w).2.2,
      n ∈ writes w.2 ∨
        (n.UID = cr.UID ∧ n.Status.ClientPod = cr.Status.ClientPod ∧
          (newNetperfPod cl.SchemeGroupVersion cr netperfTypeServer RestartPolicyAlways []).map
            (fun p => p.Name) = Outcome.ret n.Status.ServerPod) := by
  obtain ⟨s, tr⟩ := w
  unfold startServerPod
  simp only [run_lift_bind, registerNetperfServer]
  repeat' (split <;> try simp)
  all_goals simp_all +contextual [writes, or_imp, forall_and, Outcome.map]

theorem handleServerPodEvent_writes_names (cl : Cluster σ F) (cr : Netperf F) (pod : Pod)
    (w : σ × List (Call F)) :
    ∀ n ∈ writes ((handleServerPodEvent cl cr pod).run w).2.2,
      n ∈ writes w.2 ∨
        (n.UID = cr.UID ∧ n.Status.ServerPod = cr.Status.ServerPod ∧
          cr.Status.ClientPod = "" ∧
          (newNetperfPod cl.SchemeGroupVersion cr netperfTypeClient RestartPolicyOnFailure
            ["netperf", "-H", pod.Status.PodIP]).map (fun p => p.Name) =
              Outcome.ret n.Status.ClientPod) := by
  obtain ⟨s, tr⟩ := w
  unfold handleServerPodEvent
  split_ifs with h1 h2
  · simp +contextual
  · simp +contextual
  · simp only [run_lift_bind]
    repeat' (split <;> try simp)
    all_goals simp_all +contextual [writes, or_imp, forall_and, Outcome.map]

theorem handleClientPodEvent_writes_names (cl : Cluster σ F) (cr : Netperf F) (pod : Pod)
    (w : σ × List (Call F)) :
    ∀ n ∈ writes ((handleClientPodEvent cl cr pod).run w).2.2,
      n ∈ writes w.2 ∨
        (n.UID = cr.UID ∧ n.Status.ServerPod = cr.Status.ServerPod ∧
          n.Status.ClientPod = cr.Status.ClientPod) := by
  obtain ⟨s, tr⟩ := w
  unfold handleClientPodEvent
  split_ifs with h1 h2
  · simp +contextual
  · simp only [getLogFromClientPod, updateNetperfStatus, getPodByName, run_bind_assoc,
      run_getLogs_bind]
    repeat' (split <;> try simp)
    all_goals simp_all +contextual [writes, or_imp, forall_and]
  · simp +contextual

theorem Handle_writes_names (cl : Cluster σ F) (event : Event F) (s : σ) (cr : Netperf F)
    (hreq : requestOf cl s event = some cr) :
    ∀ n ∈ writes ((Handle cl event).run (s, [])).2.2,
      n.UID = cr.UID ∧
      (n.Status.ServerPod = cr.Status.ServerPod ∨
        getNetperfPodName cr netperfTypeServer = Outcome.ret n.Status.ServerPod) ∧
      (n.Status.ClientPod = cr.Status.ClientPod ∨
        (cr.Status.ClientPod = "" ∧
          getNetperfPodName cr netperfTypeClient = Outcome.ret n.Status.ClientPod)) := by
  obtain ⟨obj, deleted⟩ := event
  cases obj with
  | netperf o =>
    simp only [requestOf, Option.some.injEq] at hreq
    subst hreq
    intro n hn
    simp only [Handle, deleteNetperfPods, handleNetperfUpdateEvent] at hn
    split_ifs at hn with hd
    · simp [writes] at hn
    · split at hn
      · rcases startServerPod_writes_names cl o (s, []) n hn with h | h
        · simp [writes] at h
        · rw [newNetperfPod_name] at h
          exact ⟨h.1, Or.inr h.2.2, Or.inl h.2.1⟩
      · rcases startServerPod_writes_names cl o (s, []) n hn with h | h
        · simp [writes] at h
        · rw [newNetperfPod_name] at h
          exact ⟨h.1, Or.inr h.2.2, Or.inl h.2.1⟩
      · simp [writes] at hn
  | other k => simp [Handle, writes]
  | pod p =>
    simp only [requestOf] at hreq
    cases hown : p.OwnerReferences with
    | nil => simp [hown] at hreq
    | cons owner rest =>
      simp only [hown] at hreq
      cases hget : (cl.GetNetperf owner.Name p.Namespace s).1 with
      | error e => simp [hget] at hreq
      | ok cr' =>
        simp only [hget, Option.some.injEq] at hreq
        subst hreq
        intro n hn
        by_cases hkind : owner.Kind = "Netperf"
        · rw [Handle_pod cl p deleted s [] owner rest cr' hown hkind hget] at hn
          split_ifs at hn with hc hs
          · rcases handleClientPodEvent_writes_names cl cr' p _ n hn with h | h
            · simp [writes] at h
            · exact ⟨h.1, Or.inl h.2.1, Or.inl h.2.2⟩
          · rcases handleServerPodEvent_writes_names cl cr' p _ n hn with h | h
            · simp [writes] at h
            · rw [newNetperfPod_name] at h
              exact ⟨h.1, Or.inl h.2.1, Or.inr ⟨h.2.2.1, h.2.2.2⟩⟩
          · simp [writes] at hn
        · rw [Handle_pod_foreign cl p deleted (s, []) owner rest hown hkind] at hn
          simp [writes] at hn

theorem NamesDerived_step (cl : Cluster σ F) (event : Event F) (s : σ)
    (start cr n : Netperf F) (hinv : NamesDerived start cr)
    (hreq : requestOf cl s event = some cr)
    (hn : n ∈ writes ((Handle cl event).run (s, [])).2.2) :
    NamesDerived start n ∧
    (cr.Status.ServerPod ≠ "" → n.Status.ServerPod = cr.Status.ServerPod) ∧
    (cr.Status.ClientPod ≠ "" → n.Status.ClientPod = cr.Status.ClientPod) := by
  obtain ⟨huid, hserver, hclient⟩ := hinv
  obtain ⟨hnuid, hns, hnc⟩ := Handle_writes_names cl event s cr hreq n hn
  have hsname := getNetperfPodName_uid cr start netperfTypeServer huid
  have hcname := getNetperfPodName_uid cr start netperfTypeClient huid
  refine ⟨⟨hnuid.trans huid, ?_, ?_⟩, ?_, ?_⟩
  · rcases hns with h | h
    · rw [h]; exact hserver
    · exact Or.inr (hsname ▸ h)
  · rcases hnc with h | h
    · rw [h]; exact hclient
    · exact Or.inr (hcname ▸ h.2)
  · intro hne
    rcases hns with h | h
    · exact h
    · rcases hserver with h0 | h0
      · exact absurd h0 hne
      · rw [hsname, h0] at h
        exact (Outcome.ret.inj h).symm
  · intro hne
    rcases hnc with h | h
    · exact h
    · exact absurd h.1 hne

theorem NamesDerived_reaches (start cr later : Netperf F) (hinv : NamesDerived start cr)
    (hreach : Reaches cr later) :
    NamesDerived start later ∧
    (cr.Status.ServerPod ≠ "" → later.Status.ServerPod = cr.Status.ServerPod) ∧
    (cr.Status.ClientPod ≠ "" → later.Status.ClientPod = cr.Status.ClientPod) := by
  induction hreach with
  | refl => exact ⟨hinv, fun _ => rfl, fun _ => rfl⟩
  | step cl s event mid n _ hreq hn ih =>
    obtain ⟨hmid, hs, hc⟩ := ih
    obtain ⟨hnew, hs', hc'⟩ := NamesDerived_step cl event s start mid n hmid hreq hn
    refine ⟨hnew, ?_, ?_⟩
    · intro hne
      have := hs hne
      rw [hs' (by rw [this]; exact hne), this]
    · intro hne
      have := hc hne
      rw [hc' (by rw [this]; exact hne), this]

/-- C18: from a request with empty recorded names, after any sequence of notifications about
it handled by `Handle`, in any cluster and with any answers of the store, the recorded
server name is empty or the server name derived from the UID, and the recorded client
name is empty or the derived client name; and once a recorded name is not empty, no later
notification changes it.  The phase of the starting request plays no part. -/
theorem recorded_names_invariant (start cr : Netperf F)
    (hserver : start.Status.ServerPod = "") (hclient : start.Status.ClientPod = "")
    (hreach : Reaches start cr) :
    (cr.Status.ServerPod = "" ∨
      getNetperfPodName start netperfTypeServer = Outcome.ret cr.Status.ServerPod) ∧
    (cr.Status.ClientPod = "" ∨
      getNetperfPodName start netperfTypeClient = Outcome.ret cr.Status.ClientPod) ∧
    ∀ later : Netperf F, Reaches cr later →
      (cr.Status.ServerPod ≠ "" → later.Status.ServerPod = cr.Status.ServerPod) ∧
      (cr.Status.ClientPod ≠ "" → later.Status.ClientPod = cr.Status.ClientPod) := by
  have h0 : NamesDerived start start := ⟨rfl, Or.inl hserver, Or.inl hclient⟩
  obtain ⟨hcr, -, -⟩ := NamesDerived_reaches start start cr h0 hreach
  refine ⟨hcr.2.1, hcr.2.2, ?_⟩
  intro later hlater
  exact (NamesDerived_reaches start cr later hcr hlater).2

/-! ## The server handler and the whole run -/

theorem newNetperfPod_ret_shape (gv : GroupVersion) (cr : Netperf F) (npType : netperfType)
    (restartPolicy : String) (command : List String) (p : Pod)
    (h : newNetperfPod gv cr npType restartPolicy command = Outcome.ret p) :
    p.Namespace = cr.Namespace ∧
    p.OwnerReferences = [NewControllerRef cr gv "Netperf"] ∧
    p.Spec.RestartPolicy = restartPolicy ∧
    p.Spec.Containers = [{ Name := p.Name, Image := netperfImage, Command := command }] ∧
    p.Spec.Affinity = getNetperfPodAffinity cr npType := by
  unfold newNetperfPod at h
  split at h
  · cases h
  · cases h
    exact ⟨rfl, rfl, rfl, rfl, rfl⟩

theorem server_name_ne_empty (cr : Netperf F) (name : String)
    (h : getNetperfPodName cr netperfTypeServer = Outcome.ret name) : name ≠ "" := by
  have hne : netperfTypeServer ≠ netperfTypeClient := by decide
  unfold getNetperfPodName at h
  cases hi : index (strings.Split cr.UID "-") 4 with
  | panic p => simp [hi] at h
  | ret suffix =>
    simp [hi, hne] at h
    subst h
    intro h
    have h' := congrArg String.data h
    simp [String.data_append] at h'

theorem startServerPod_created (cl : Cluster σ F) (cr : Netperf F) (pod : Pod) (s s1 : σ)
    (tr : List (Call F))
    (hpod : newNetperfPod cl.SchemeGroupVersion cr netperfTypeServer RestartPolicyAlways [] =
      Outcome.ret pod)
    (hcreate : cl.Create pod s = (none, s1)) :
    (startServerPod cl cr).run (s, tr) =
      (Outcome.ret (cl.Update (withServerPod cr pod.Name) s1).1,
        ((cl.Update (withServerPod cr pod.Name) s1).2,
          tr ++ [Call.Create pod none,
                 Call.Update (withServerPod cr pod.Name)
                   (cl.Update (withServerPod cr pod.Name) s1).1])) := by
  simp [startServerPod, hpod, hcreate, registerNetperfServer, errors.IsAlreadyExists,
    withServerPod]

theorem handleServerPodEvent_created (cl : Cluster σ F) (cr : Netperf F)
    (pod clientPod : Pod) (s s1 : σ) (tr : List (Call F))
    (hrun : pod.Status.Phase = PodRunning) (hclient : cr.Status.ClientPod = "")
    (hpod : newNetperfPod cl.SchemeGroupVersion cr netperfTypeClient RestartPolicyOnFailure
      ["netperf", "-H", pod.Status.PodIP] = Outcome.ret clientPod)
    (hcreate : cl.Create clientPod s = (none, s1)) :
    (handleServerPodEvent cl cr pod).run (s, tr) =
      (Outcome.ret none,
        ((cl.Update (withClientPod cr clientPod.Name) s1).2,
          tr ++ [Call.Create clientPod none,
                 Call.Update (withClientPod cr clientPod.Name)
                   (cl.Update (withClientPod cr clientPod.Name) s1).1])) := by
  simp [handleServerPodEvent, hrun, hclient, hpod, hcreate, errors.IsAlreadyExists,
    withClientPod]

theorem handleClientPodEvent_completed (cl : Cluster σ F) (cr : Netperf F)
    (pod serverPod : Pod) (s s1 s2 s3 s4 : σ) (tr : List (Call F)) (res : String) (t : F)
    (hphase : cr.Status.Status ≠ Phase.Done)
    (hpod : pod.Status.Phase = PodSucceeded)
    (hlogs : cl.GetLogs pod.Namespace pod.Name s = (Result.ok res, s1))
    (hparse : parseNetperfResult cl.ParseFloat res = Outcome.ret (Result.ok t))
    (hget : cl.GetPod { Kind := "Pod", APIVersion := "v1", Name := cr.Status.ServerPod,
                        Namespace := cr.Namespace } s1 = ((serverPod, none), s2))
    (hdel1 : cl.Delete pod s2 = (none, s3))
    (hdel2 : cl.Delete serverPod s3 = (none, s4)) :
    (handleClientPodEvent cl cr pod).run (s, tr) =
      (Outcome.ret (cl.Update (withThroughput cr t) s4).1,
        ((cl.Update (withThroughput cr t) s4).2,
          tr ++ [Call.GetLogs pod.Namespace pod.Name (Result.ok res),
                 Call.GetPod { Kind := "Pod", APIVersion := "v1",
                               Name := cr.Status.ServerPod, Namespace := cr.Namespace }
                   (serverPod, none),
                 Call.Delete pod none,
                 Call.Delete serverPod none,
                 Call.Update (withThroughput cr t)
                   (cl.Update (withThroughput cr t) s4).1])) := by
  have hne : ¬ (PodSucceeded = PodRunning) := by decide
  simp [handleClientPodEvent, hpod, hne, hphase, getLogFromClientPod, hlogs, hparse,
    getPodByName, hget, hdel1, hdel2, withThroughput]

/-- C15, as stated, fails: for the sample request with a recorded server pod and no recorded
client pod, a running server pod and a store that reports already-exists for the client
pod, the recorded client name (empty) differs from the derived one, and the handler is not
a no-op: it returns success and writes the request with phase Testing and the derived
client name recorded. -/
theorem handleServerPodEvent_already_exists_writes :
    scheduledRequest.Status.ClientPod = "" ∧
    getNetperfPodName scheduledRequest netperfTypeClient = Outcome.ret sampleClientName ∧
    ((handleServerPodEvent cannedCluster scheduledRequest runningServer).run
        ({ createErr := some alreadyExists }, [])).1 = Outcome.ret none ∧
    writes ((handleServerPodEvent cannedCluster scheduledRequest runningServer).run
        ({ createErr := some alreadyExists }, [])).2.2 =
      [sampleRequest Phase.Test sampleServerName sampleClientName] := by
  decide

/-- C15, amended: for a request with an empty recorded client name and a server pod in phase
Running, if the creation of the client pod reports already-exists, then the recorded
client name differs from the derived client name and the handler writes one status, with
phase Testing, the derived client name recorded and the recorded server name unchanged,
and returns success.  (The handler is a no-op on already-exists only when the recorded
client name equals the derived one; with an empty recorded name that does not happen.) -/
theorem handleServerPodEvent_already_exists (cl : Cluster σ F) (cr : Netperf F)
    (pod clientPod : Pod) (s s1 : σ) (e : GoError)
    (hclient : cr.Status.ClientPod = "")
    (hrun : pod.Status.Phase = PodRunning)
    (hpod : newNetperfPod cl.SchemeGroupVersion cr netperfTypeClient RestartPolicyOnFailure
      ["netperf", "-H", pod.Status.PodIP] = Outcome.ret clientPod)
    (hcreate : cl.Create clientPod s = (some e, s1))
    (he : errors.IsAlreadyExists (some e) = true) :
    cr.Status.ClientPod ≠ clientPod.Name ∧
    ∃ c : Netperf F,
      c.Status.Status = Phase.Test ∧ c.Status.ClientPod = clientPod.Name ∧
      c.Status.ServerPod = cr.Status.ServerPod ∧
      (handleServerPodEvent cl cr pod).run (s, []) =
        (Outcome.ret none,
          ((cl.Update c s1).2,
            [Call.Create clientPod (some e), Call.Update c (cl.Update c s1).1])) := by
  have hname : clientPod.Name ≠ "" :=
    client_name_ne_empty cr _ (newNetperfPod_ret_name _ _ _ _ _ _ hpod)
  have hne : cr.Status.ClientPod ≠ clientPod.Name := by
    rw [hclient]
    exact fun h => hname h.symm
  refine ⟨hne,
    { cr with
      Status := { cr.Status with Status := Phase.Test, ClientPod := clientPod.Name } },
    rfl, rfl, rfl, ?_⟩
  have hne' : ¬ ("" = clientPod.Name) := fun h => hname h.symm
  simp [handleServerPodEvent, hrun, hclient, hpod, hcreate, he, hne']

/-- Witness for C15, amended: the sample request with its server pod recorded, the running
server pod, and a store that reports already-exists. -/
theorem handleServerPodEvent_already_exists_witness :
    scheduledRequest.Status.ClientPod ≠ builtClient.Name ∧
    ∃ c : Netperf strconv.Decimal,
      c.Status.Status = Phase.Test ∧ c.Status.ClientPod = builtClient.Name ∧
      c.Status.ServerPod = scheduledRequest.Status.ServerPod ∧
      (handleServerPodEvent cannedCluster scheduledRequest runningServer).run
          ({ createErr := some alreadyExists }, []) =
        (Outcome.ret none,
          ((cannedCluster.Update c { createErr := some alreadyExists }).2,
            [Call.Create builtClient (some alreadyExists),
             Call.Update c (cannedCluster.Update c { createErr := some alreadyExists }).1])) :=
  handleServerPodEvent_already_exists cannedCluster scheduledRequest runningServer builtClient
    { createErr := some alreadyExists } { createErr := some alreadyExists } alreadyExists
    (by decide) (by decide) (by decide) rfl (by decide)

/-- C16: for a request with an empty recorded client name and a server pod in phase Running
with address `a`, the one pod submitted for creation is the client pod of the request:
derived client name, namespace of the request, restart policy OnFailure, command
`netperf -H a`.  If the creation succeeds, the handler returns success after writing one
status with phase Testing, the name of the created pod recorded as client name and the
recorded server name unchanged.  For any request and pod, if the pod is not Running or a
client name is recorded, the handler makes no call at all. -/
theorem handleServerPodEvent_creates_client (cl : Cluster σ F) (cr : Netperf F)
    (pod clientPod : Pod) (s : σ)
    (hclient : cr.Status.ClientPod = "")
    (hrun : pod.Status.Phase = PodRunning)
    (hpod : newNetperfPod cl.SchemeGroupVersion cr netperfTypeClient RestartPolicyOnFailure
      ["netperf", "-H", pod.Status.PodIP] = Outcome.ret clientPod) :
    (getNetperfPodName cr netperfTypeClient = Outcome.ret clientPod.Name ∧
      clientPod.Namespace = cr.Namespace ∧
      clientPod.Spec.RestartPolicy = RestartPolicyOnFailure ∧
      clientPod.Spec.Containers.map (fun c => c.Command) =
        [["netperf", "-H", pod.Status.PodIP]]) ∧
    creates ((handleServerPodEvent cl cr pod).run (s, [])).2.2 = [clientPod] ∧
    ((cl.Create clientPod s).1 = none →
      (handleServerPodEvent cl cr pod).run (s, []) =
        (Outcome.ret none,
          ((cl.Update (withClientPod cr clientPod.Name) (cl.Create clientPod s).2).2,
            [Call.Create clientPod none,
             Call.Update (withClientPod cr clientPod.Name)
               (cl.Update (withClientPod cr clientPod.Name) (cl.Create clientPod s).2).1])) ∧
      (withClientPod cr clientPod.Name).Status.Status = Phase.Test ∧
      (withClientPod cr clientPod.Name).Status.ClientPod = clientPod.Name ∧
      (withClientPod cr clientPod.Name).Status.ServerPod = cr.Status.ServerPod) ∧
    ∀ (other : Netperf F) (p : Pod) (w : σ × List (Call F)),
      p.Status.Phase ≠ PodRunning ∨ other.Status.ClientPod ≠ "" →
      (handleServerPodEvent cl other p).run w = (Outcome.ret none, w) := by
  obtain ⟨hns, -, hrp, hcont, -⟩ := newNetperfPod_ret_shape _ _ _ _ _ _ hpod
  refine ⟨⟨newNetperfPod_ret_name _ _ _ _ _ _ hpod, hns, hrp, by rw [hcont]; rfl⟩, ?_, ?_, ?_⟩
  · simp only [handleServerPodEvent, hrun, hclient, hpod, ne_eq, not_true_eq_false,
      if_false, run_lift_bind, run_create_bind]
    split_ifs <;> simp [creates]
  · intro hcreate
    refine ⟨?_, rfl, rfl, rfl⟩
    rw [handleServerPodEvent_created cl cr pod clientPod s (cl.Create clientPod s).2 [] hrun
      hclient hpod (by rw [← hcreate])]
    rfl
  · intro other p w h
    unfold handleServerPodEvent
    rcases h with h | h
    · simp [h]
    · split_ifs <;> simp_all

/-- Witness for C16: the sample request with its server pod recorded and the server pod
running at `10.0.0.7`. -/
theorem handleServerPodEvent_creates_client_witness :
    (getNetperfPodName scheduledRequest netperfTypeClient = Outcome.ret builtClient.Name ∧
      builtClient.Namespace = scheduledRequest.Namespace ∧
      builtClient.Spec.RestartPolicy = RestartPolicyOnFailure ∧
      builtClient.Spec.Containers.map (fun c => c.Command) =
        [["netperf", "-H", runningServer.Status.PodIP]]) ∧
    creates ((handleServerPodEvent cannedCluster scheduledRequest runningServer).run
        (healthyStore scheduledRequest, [])).2.2 = [builtClient] ∧
    ((cannedCluster.Create builtClient (healthyStore scheduledRequest)).1 = none →
      (handleServerPodEvent cannedCluster scheduledRequest runningServer).run
          (healthyStore scheduledRequest, []) =
        (Outcome.ret none,
          ((cannedCluster.Update (withClientPod scheduledRequest builtClient.Name)
              (cannedCluster.Create builtClient (healthyStore scheduledRequest)).2).2,
            [Call.Create builtClient none,
             Call.Update (withClientPod scheduledRequest builtClient.Name)
               (cannedCluster.Update (withClientPod scheduledRequest builtClient.Name)
                 (cannedCluster.Create builtClient (healthyStore scheduledRequest)).2).1])) ∧
      (withClientPod scheduledRequest builtClient.Name).Status.Status = Phase.Test ∧
      (withClientPod scheduledRequest builtClient.Name).Status.ClientPod = builtClient.Name ∧
      (withClientPod scheduledRequest builtClient.Name).Status.ServerPod =
        scheduledRequest.Status.ServerPod) ∧
    ∀ (other : Netperf strconv.Decimal) (p : Pod) (w : Canned × List (Call strconv.Decimal)),
      p.Status.Phase ≠ PodRunning ∨ other.Status.ClientPod ≠ "" →
      (handleServerPodEvent cannedCluster other p).run w = (Outcome.ret none, w) :=
  handleServerPodEvent_creates_client cannedCluster scheduledRequest runningServer builtClient
    (healthyStore scheduledRequest) (by decide) (by decide) (by decide)

/-- C17: for a request in phase Initial or ServerScheduled whose server pod is built and
submitted, if the creation fails for another reason than already-exists, then
`startServerPod` (and `handleNetperfUpdateEvent`, which calls it) returns that failure,
the creation is the only call made, and no status is written. -/
theorem startServerPod_create_failure (cl : Cluster σ F) (cr : Netperf F) (pod : Pod)
    (s s1 : σ) (e : GoError)
    (hphase : cr.Status.Status = Phase.Initial ∨ cr.Status.Status = Phase.Server)
    (hpod : newNetperfPod cl.SchemeGroupVersion cr netperfTypeServer RestartPolicyAlways [] =
      Outcome.ret pod)
    (hcreate : cl.Create pod s = (some e, s1))
    (he : errors.IsAlreadyExists (some e) = false) :
    (handleNetperfUpdateEvent cl cr).run (s, []) =
      (Outcome.ret (some e), (s1, [Call.Create pod (some e)])) ∧
    (startServerPod cl cr).run (s, []) =
      (Outcome.ret (some e), (s1, [Call.Create pod (some e)])) ∧
    writes ((startServerPod cl cr).run (s, [])).2.2 = [] := by
  have hstart : (startServerPod cl cr).run (s, []) =
      (Outcome.ret (some e), (s1, [Call.Create pod (some e)])) := by
    simp [startServerPod, hpod, hcreate, he]
  refine ⟨?_, hstart, by rw [hstart]; rfl⟩
  rcases hphase with h | h <;> simp [handleNetperfUpdateEvent, h, hstart]

/-- Witness for C17: the sample request in phase Initial and a store whose creation times
out. -/
theorem startServerPod_create_failure_witness :
    (handleNetperfUpdateEvent cannedCluster initialRequest).run
        ({ createErr := some serverTimeout }, []) =
      (Outcome.ret (some serverTimeout),
        ({ createErr := some serverTimeout }, [Call.Create builtServer (some serverTimeout)])) ∧
    (startServerPod cannedCluster initialRequest).run
        ({ createErr := some serverTimeout }, []) =
      (Outcome.ret (some serverTimeout),
        ({ createErr := some serverTimeout }, [Call.Create builtServer (some serverTimeout)])) ∧
    writes ((startServerPod cannedCluster initialRequest).run
        ({ createErr := some serverTimeout }, [])).2.2 = [] :=
  startServerPod_create_failure cannedCluster initialRequest builtServer
    { createErr := some serverTimeout } { createErr := some serverTimeout } serverTimeout
    (by decide) (by decide) rfl (by decide)

/-- Witness for C18: the sample request as created reaches, by its own notification, the
request with its server pod recorded. -/
theorem recorded_names_invariant_witness :
    Reaches initialRequest scheduledRequest ∧
    (scheduledRequest.Status.ServerPod = "" ∨
      getNetperfPodName initialRequest netperfTypeServer =
        Outcome.ret scheduledRequest.Status.ServerPod) ∧
    (scheduledRequest.Status.ClientPod = "" ∨
      getNetperfPodName initialRequest netperfTypeClient =
        Outcome.ret scheduledRequest.Status.ClientPod) ∧
    ∀ later : Netperf strconv.Decimal, Reaches scheduledRequest later →
      (scheduledRequest.Status.ServerPod ≠ "" →
        later.Status.ServerPod = scheduledRequest.Status.ServerPod) ∧
      (scheduledRequest.Status.ClientPod ≠ "" →
        later.Status.ClientPod = scheduledRequest.Status.ClientPod) :=
  have hreach : Reaches initialRequest scheduledRequest :=
    Reaches.step cannedCluster ({} : Canned) ⟨Object.netperf initialRequest, false⟩
      initialRequest scheduledRequest Reaches.refl (by decide) (by decide)
  ⟨hreach, recorded_names_invariant initialRequest scheduledRequest (by decide) (by decide)
    hreach⟩

/-- C19: the whole run.  For a request in phase Initial with no recorded client name and no
placement hints, whose server and client pods can be built (its UID is well-formed), when
every store call succeeds: handling the request notification creates the server pod,
under the derived server name and without affinity, and writes phase ServerScheduled;
handling the notification of that pod Running at address `a` creates the client pod,
whose command is `netperf -H a`, and writes phase Testing; handling the notification of
the client pod Succeeded with an output that parses to `t` deletes the client pod and the
server pod and writes phase Done with throughput `t`.  Each handling returns success. -/
theorem end_to_end (cl : Cluster σ F) (cr0 : Netperf F) (serverPod clientPod : Pod)
    (a ip res : String) (t : F)
    (s0 s0a s0b s1 s1a s1b s1c s2 s2a s2b s2c s2d s2e s2f : σ)
    (hphase : cr0.Status.Status = Phase.Initial)
    (hclient : cr0.Status.ClientPod = "")
    (hhints : cr0.Spec.ServerNode = "" ∧ cr0.Spec.ClientNode = "")
    (hsp : newNetperfPod cl.SchemeGroupVersion cr0 netperfTypeServer RestartPolicyAlways [] =
      Outcome.ret serverPod)
    (hcp : newNetperfPod cl.SchemeGroupVersion cr0 netperfTypeClient RestartPolicyOnFailure
      ["netperf", "-H", a] = Outcome.ret clientPod)
    (hcreate1 : cl.Create serverPod s0 = (none, s0a))
    (hupdate1 : cl.Update (withServerPod cr0 serverPod.Name) s0a = (none, s0b))
    (hget2 : cl.GetNetperf cr0.Name cr0.Namespace s1 =
      (Result.ok (withServerPod cr0 serverPod.Name), s1a))
    (hcreate2 : cl.Create clientPod s1a = (none, s1b))
    (hupdate2 : cl.Update (withClientPod (withServerPod cr0 serverPod.Name) clientPod.Name) s1b =
      (none, s1c))
    (hget3 : cl.GetNetperf cr0.Name cr0.Namespace s2 =
      (Result.ok (withClientPod (withServerPod cr0 serverPod.Name) clientPod.Name), s2a))
    (hlogs : cl.GetLogs cr0.Namespace clientPod.Name s2a = (Result.ok res, s2b))
    (hparse : parseNetperfResult cl.ParseFloat res = Outcome.ret (Result.ok t))
    (hgetpod : cl.GetPod { Kind := "Pod", APIVersion := "v1", Name := serverPod.Name,
                           Namespace := cr0.Namespace } s2b =
      ((observed serverPod PodRunning a, none), s2c))
    (hdel1 : cl.Delete (observed clientPod PodSucceeded ip) s2c = (none, s2d))
    (hdel2 : cl.Delete (observed serverPod PodRunning a) s2d = (none, s2e))
    (hupdate3 : cl.Update
      (withThroughput (withClientPod (withServerPod cr0 serverPod.Name) clientPod.Name) t) s2e =
        (none, s2f)) :
    (getNetperfPodName cr0 netperfTypeServer = Outcome.ret serverPod.Name ∧
      serverPod.Spec.Affinity = none ∧ clientPod.Spec.Affinity = none ∧
      clientPod.Spec.Containers.map (fun c => c.Command) = [["netperf", "-H", a]]) ∧
    (Handle cl ⟨Object.netperf cr0, false⟩).run (s0, []) =
      (Outcome.ret none,
        (s0b, [Call.Create serverPod none,
               Call.Update (withServerPod cr0 serverPod.Name) none])) ∧
    (Handle cl ⟨Object.pod (observed serverPod PodRunning a), false⟩).run (s1, []) =
      (Outcome.ret none,
        (s1c, [Call.GetNetperf cr0.Name cr0.Namespace
                 (Result.ok (withServerPod cr0 serverPod.Name)),
               Call.Create clientPod none,
               Call.Update (withClientPod (withServerPod cr0 serverPod.Name) clientPod.Name)
                 none])) ∧
    (Handle cl ⟨Object.pod (observed clientPod PodSucceeded ip), false⟩).run (s2, []) =
      (Outcome.ret none,
        (s2f, [Call.GetNetperf cr0.Name cr0.Namespace
                 (Result.ok (withClientPod (withServerPod cr0 serverPod.Name) clientPod.Name)),
               Call.GetLogs cr0.Namespace clientPod.Name (Result.ok res),
               Call.GetPod { Kind := "Pod", APIVersion := "v1", Name := serverPod.Name,
                             Namespace := cr0.Namespace }
                 (observed serverPod PodRunning a, none),
               Call.Delete (observed clientPod PodSucceeded ip) none,
               Call.Delete (observed serverPod PodRunning a) none,
               Call.Update
                 (withThroughput
                   (withClientPod (withServerPod cr0 serverPod.Name) clientPod.Name) t)
                 none])) ∧
    (withServerPod cr0 serverPod.Name).Status.Status = Phase.Server ∧
    (withClientPod (withServerPod cr0 serverPod.Name) clientPod.Name).Status.Status =
      Phase.Test ∧
    (withThroughput (withClientPod (withServerPod cr0 serverPod.Name) clientPod.Name)
      t).Status.Status = Phase.Done ∧
    (withThroughput (withClientPod (withServerPod cr0 serverPod.Name) clientPod.Name)
      t).Status.SpeedBitsPerSec = t := by
  have hsname := newNetperfPod_ret_name _ _ _ _ _ _ hsp
  have hcname := newNetperfPod_ret_name _ _ _ _ _ _ hcp
  obtain ⟨hsns, hsown, -, -, hsaff⟩ := newNetperfPod_ret_shape _ _ _ _ _ _ hsp
  obtain ⟨hcns, hcown, -, hccont, hcaff⟩ := newNetperfPod_ret_shape _ _ _ _ _ _ hcp
  have hsne : serverPod.Name ≠ "" := server_name_ne_empty cr0 _ hsname
  refine ⟨⟨hsname, ?_, ?_, ?_⟩, ?_, ?_, ?_, rfl, rfl, rfl, rfl⟩
  · rw [hsaff]; simp [getNetperfPodAffinity, hhints.1]
  · rw [hcaff]; simp [getNetperfPodAffinity, hhints.2]
  · rw [hccont]; rfl
  · have hrun : (Handle cl ⟨Object.netperf cr0, false⟩).run (s0, []) =
        (startServerPod cl cr0).run (s0, []) := by
      simp [Handle, handleNetperfUpdateEvent, hphase]
    rw [hrun, startServerPod_created cl cr0 serverPod s0 s0a [] hsp hcreate1, hupdate1]
    rfl
  · have hown : (observed serverPod PodRunning a).OwnerReferences =
        NewControllerRef cr0 cl.SchemeGroupVersion "Netperf" :: [] := hsown
    have hget : (cl.GetNetperf (NewControllerRef cr0 cl.SchemeGroupVersion "Netperf").Name
        (observed serverPod PodRunning a).Namespace s1).1 =
          Result.ok (withServerPod cr0 serverPod.Name) := by
      show (cl.GetNetperf cr0.Name serverPod.Namespace s1).1 = _
      rw [hsns, hget2]
    have hstate : (cl.GetNetperf (NewControllerRef cr0 cl.SchemeGroupVersion "Netperf").Name
        (observed serverPod PodRunning a).Namespace s1).2 = s1a := by
      show (cl.GetNetperf cr0.Name serverPod.Namespace s1).2 = _
      rw [hsns, hget2]
    have hnc : ¬ ((observed serverPod PodRunning a).Name =
        (withServerPod cr0 serverPod.Name).Status.ClientPod) := by
      show ¬ (serverPod.Name = cr0.Status.ClientPod)
      rw [hclient]; exact hsne
    have hs : (observed serverPod PodRunning a).Name =
        (withServerPod cr0 serverPod.Name).Status.ServerPod := rfl
    rw [Handle_pod cl _ false s1 [] _ _ _ hown rfl hget, if_neg hnc, if_pos hs, hstate,
      handleServerPodEvent_created cl (withServerPod cr0 serverPod.Name)
        (observed serverPod PodRunning a) clientPod s1a s1b _ rfl hclient hcp hcreate2,
      hupdate2]
    simp [NewControllerRef, observed, hsns]
  · have hown : (observed clientPod PodSucceeded ip).OwnerReferences =
        NewControllerRef cr0 cl.SchemeGroupVersion "Netperf" :: [] := hcown
    have hget : (cl.GetNetperf (NewControllerRef cr0 cl.SchemeGroupVersion "Netperf").Name
        (observed clientPod PodSucceeded ip).Namespace s2).1 =
          Result.ok (withClientPod (withServerPod cr0 serverPod.Name) clientPod.Name) := by
      show (cl.GetNetperf cr0.Name clientPod.Namespace s2).1 = _
      rw [hcns, hget3]
    have hstate : (cl.GetNetperf (NewControllerRef cr0 cl.SchemeGroupVersion "Netperf").Name
        (observed clientPod PodSucceeded ip).Namespace s2).2 = s2a := by
      show (cl.GetNetperf cr0.Name clientPod.Namespace s2).2 = _
      rw [hcns, hget3]
    have hc : (observed clientPod PodSucceeded ip).Name =
        (withClientPod (withServerPod cr0 serverPod.Name) clientPod.Name).Status.ClientPod :=
      rfl
    have hnd : (withClientPod (withServerPod cr0 serverPod.Name) clientPod.Name).Status.Status ≠
        Phase.Done := by
      show Phase.Test ≠ Phase.Done
      decide
    have hlogs' : cl.GetLogs (observed clientPod PodSucceeded ip).Namespace
        (observed clientPod PodSucceeded ip).Name s2a = (Result.ok res, s2b) := by
      show cl.GetLogs clientPod.Namespace clientPod.Name s2a = _
      rw [hcns, hlogs]
    rw [Handle_pod cl _ false s2 [] _ _ _ hown rfl hget, if_pos hc, hstate,
      handleClientPodEvent_completed cl
        (withClientPod (withServerPod cr0 serverPod.Name) clientPod.Name)
        (observed clientPod PodSucceeded ip) (observed serverPod PodRunning a)
        s2a s2b s2c s2d s2e _ res t hnd rfl hlogs' hparse hgetpod hdel1 hdel2,
      hupdate3]
    simp [NewControllerRef, observed, hcns, withClientPod, withServerPod]

/-- Witness for C19: the sample request, its server pod running at `10.0.0.7`, its client
pod with the sample report as output, and stores in which every call succeeds. -/
theorem end_to_end_witness :
    (getNetperfPodName initialRequest netperfTypeServer = Outcome.ret builtServer.Name ∧
      builtServer.Spec.Affinity = none ∧ builtClient.Spec.Affinity = none ∧
      builtClient.Spec.Containers.map (fun c => c.Command) = [["netperf", "-H", "10.0.0.7"]]) ∧
    (Handle cannedCluster ⟨Object.netperf initialRequest, false⟩).run ({}, []) =
      (Outcome.ret none,
        ({}, [Call.Create builtServer none,
              Call.Update (withServerPod initialRequest builtServer.Name) none])) ∧
    (Handle cannedCluster ⟨Object.pod (observed builtServer PodRunning "10.0.0.7"), false⟩).run
        (scenarioStore (withServerPod initialRequest builtServer.Name), []) =
      (Outcome.ret none,
        (scenarioStore (withServerPod initialRequest builtServer.Name),
          [Call.GetNetperf initialRequest.Name initialRequest.Namespace
             (Result.ok (withServerPod initialRequest builtServer.Name)),
           Call.Create builtClient none,
           Call.Update
             (withClientPod (withServerPod initialRequest builtServer.Name) builtClient.Name)
             none])) ∧
    (Handle cannedCluster ⟨Object.pod (observed builtClient PodSucceeded "10.0.0.8"), false⟩).run
        (scenarioStore
          (withClientPod (withServerPod initialRequest builtServer.Name) builtClient.Name),
          []) =
      (Outcome.ret none,
        (scenarioStore
          (withClientPod (withServerPod initialRequest builtServer.Name) builtClient.Name),
          [Call.GetNetperf initialRequest.Name initialRequest.Namespace
             (Result.ok
               (withClientPod (withServerPod initialRequest builtServer.Name)
                 builtClient.Name)),
           Call.GetLogs initialRequest.Namespace builtClient.Name (Result.ok sampleReport),
           Call.GetPod { Kind := "Pod", APIVersion := "v1", Name := builtServer.Name,
                         Namespace := initialRequest.Namespace }
             (observed builtServer PodRunning "10.0.0.7", none),
           Call.Delete (observed builtClient PodSucceeded "10.0.0.8") none,
           Call.Delete (observed builtServer PodRunning "10.0.0.7") none,
           Call.Update
             (withThroughput
               (withClientPod (withServerPod initialRequest builtServer.Name) builtClient.Name)
               { negative := false, mantissa := 94123, scale := 2 })
             none])) ∧
    (withServerPod initialRequest builtServer.Name).Status.Status = Phase.Server ∧
    (withClientPod (withServerPod initialRequest builtServer.Name)
      builtClient.Name).Status.Status = Phase.Test ∧
    (withThroughput
      (withClientPod (withServerPod initialRequest builtServer.Name) builtClient.Name)
      { negative := false, mantissa := 94123, scale := 2 }).Status.Status = Phase.Done ∧
    (withThroughput
      (withClientPod (withServerPod initialRequest builtServer.Name) builtClient.Name)
      { negative := false, mantissa := 94123, scale := 2 }).Status.SpeedBitsPerSec =
        { negative := false, mantissa := 94123, scale := 2 } :=
  end_to_end cannedCluster initialRequest builtServer builtClient "10.0.0.7" "10.0.0.8"
    sampleReport { negative := false, mantissa := 94123, scale := 2 }
    {} {} {}
    (scenarioStore (withServerPod initialRequest builtServer.Name))
    (scenarioStore (withServerPod initialRequest builtServer.Name))
    (scenarioStore (withServerPod initialRequest builtServer.Name))
    (scenarioStore (withServerPod initialRequest builtServer.Name))
    (scenarioStore (withClientPod (withServerPod initialRequest builtServer.Name)
      builtClient.Name))
    (scenarioStore (withClientPod (withServerPod initialRequest builtServer.Name)
      builtClient.Name))
    (scenarioStore (withClientPod (withServerPod initialRequest builtServer.Name)
      builtClient.Name))
    (scenarioStore (withClientPod (withServerPod initialRequest builtServer.Name)
      builtClient.Name))
    (scenarioStore (withClientPod (withServerPod initialRequest builtServer.Name)
      builtClient.Name))
    (scenarioStore (withClientPod (withServerPod initialRequest builtServer.Name)
      builtClient.Name))
    (scenarioStore (withClientPod (withServerPod initialRequest builtServer.Name)
      builtClient.Name))
    (by decide) (by decide) (by decide) (by decide) (by decide)
    rfl rfl rfl rfl rfl rfl rfl (by decide) rfl rfl rfl rfl

end Theorems

end Stub
